import Mathlib

/-!
Verification of the PageRank implementation in `pr.py`.

The development shallowly embeds the two core functions of the source:

* `pageRank` (solver, lines 40-71): damped power iteration over a sparse
  transition structure, with a residual-based stopping rule and an
  iteration cap.  Rank vectors are modelled as `Fin n → ℚ` (exact
  arithmetic standing for the float arrays of the source); the sparse
  matrix is its list of `(source, dest, weight)` triples.
* `readLinksFile` (loader, lines 73-95): parses a structured edge list
  into the triple list plus a per-node dangling flag vector, failing on
  index errors, edge-count mismatches, and the bounds checks that the
  `scipy` COO-matrix constructor performs.
-/

namespace PR

/-- A stored sparse-matrix triple at solver level: `link_mat[dst, src] = w`.
Ids are in-range (`Fin n`), as guaranteed by the COO construction. -/
structure Triple (n : ℕ) where
  src : Fin n
  dst : Fin n
  w : ℚ
deriving DecidableEq

/-- `u = np.ones(n)/n` (line 46): the uniform vector. -/
def uVec (n : ℕ) : Fin n → ℚ := fun _ => 1 / n

/-- `lin.norm(v, 1)`: the L1 norm of a vector. -/
def l1norm {n : ℕ} (v : Fin n → ℚ) : ℚ := ∑ i, |v i|

/-- `np.dot(dangle_vec, r)` (line 62): `dangle_vec` holds `1` at dangling
nodes and `0` elsewhere, so the dot product sums `r` over dangling nodes. -/
def danglingDot {n : ℕ} (dangle : Fin n → Bool) (r : Fin n → ℚ) : ℚ :=
  ∑ j, if dangle j then r j else 0

/-- `link_mat * r` (line 64): row `d` of the CSR product sums `w * r.src`
over the stored triples whose destination is `d`. -/
def matVec {n : ℕ} (ts : List (Triple n)) (r : Fin n → ℚ) : Fin n → ℚ :=
  fun d => (ts.map (fun t => if t.dst = d then t.w * r t.src else 0)).sum

/-- The vector accumulated by lines 62-64, before normalization:
`r = damp * dot(dangle, r_old) * u; r += (1-damp) * u; r += damp * (link_mat * r_old)`. -/
def preNorm {n : ℕ} (ts : List (Triple n)) (dangle : Fin n → Bool) (damp : ℚ)
    (r_old : Fin n → ℚ) : Fin n → ℚ :=
  fun i => damp * danglingDot dangle r_old * uVec n i
    + (1 - damp) * uVec n i
    + damp * matVec ts r_old i

/-- One body of the `while` loop (lines 61-67): compute the next rank
vector (lines 62-65) and the residual `‖r_old - r‖₁` (line 67). -/
def pageRankStep {n : ℕ} (ts : List (Triple n)) (dangle : Fin n → Bool) (damp : ℚ)
    (r : Fin n → ℚ) : (Fin n → ℚ) × ℚ :=
  let r_old := r
  let r3 := preNorm ts dangle damp r_old
  let r4 := fun i => r3 i / l1norm r3
  (r4, l1norm (fun i => r_old i - r4 i))

/-- The `while True` loop (lines 51-69).  `fuel = max_iters - iters`, so
`fuel = 0` is exactly the source's `iters == max_iters` test; the residual
test comes first, as in the source. -/
def pageRankGo {n : ℕ} (ts : List (Triple n)) (dangle : Fin n → Bool) (damp eps : ℚ) :
    ℕ → (Fin n → ℚ) → ℚ → ℕ → (Fin n → ℚ) × ℚ × ℕ × String
  | fuel, r, residual, iters =>
    if residual ≤ eps then (r, residual, iters, "residual")
    else
      match fuel with
      | 0 => (r, residual, iters, "iters")
      | f + 1 =>
        let s := pageRankStep ts dangle damp r
        pageRankGo ts dangle damp eps f s.1 s.2 (iters + 1)

/-- `pageRank` (lines 40-71): start from the uniform vector with the
residual sentinel `eps + 1` and `iters = 0`, and loop. -/
def pageRank {n : ℕ} (ts : List (Triple n)) (dangle : Fin n → Bool)
    (damp eps : ℚ) (maxIters : ℕ) : (Fin n → ℚ) × ℚ × ℕ × String :=
  pageRankGo ts dangle damp eps maxIters (uVec n) (eps + 1) 0

/-! ### Loader (`readLinksFile`, lines 73-95)

The loader is modelled from the point where each input line has been
split and its fields parsed as integers (the CSV/string layer is thin
I/O): a line is a source id plus a list of destination ids.  The arrays
`sources`/`links`/`normadj` are modelled as the list of triples written
into them, `dangle` as a `List Bool`, `links_seen` as a counter.

Failure modes of the Python code, in evaluation order:
* writing `dangle[source]` with `source ≥ n` or `source < -n` raises
  `IndexError` (a negative `source` with `-n ≤ source < 0` wraps around,
  as numpy indexing does);
* writing `sources[links_seen + i]` past the end of the length-`m`
  arrays raises `IndexError`;
* `assert links_seen == num_links` (line 93) raises on mismatch;
* the `coo_matrix` constructor (line 94) rejects any row/column index
  outside `[0, n)`.
Every failure aborts the call: no partial graph is ever returned. -/

/-- One parsed input line: `SOURCE, DEST1, DEST2, ...`. -/
structure InLine where
  source : ℤ
  dests : List ℤ
deriving DecidableEq

/-- A loader-level triple `(source, dest, weight)`, ids still unchecked. -/
structure RawTriple where
  src : ℤ
  dst : ℤ
  w : ℚ
deriving DecidableEq

/-- The distinct ways `readLinksFile` can raise. -/
inductive LoadErr where
  /-- `IndexError` writing `dangle[source]` (line 87). -/
  | badDangleIndex
  /-- `IndexError` writing past the end of the `m`-length arrays (lines 89-91). -/
  | writeOverflow
  /-- the `assert links_seen == num_links` failure (line 93). -/
  | countMismatch
  /-- `coo_matrix` rejecting an out-of-range row/column index (line 94). -/
  | badCooIndex
deriving DecidableEq

/-- The loader's successful result: `(num_pages, link_mat, dangle)`,
with `link_mat` kept as its triples. -/
structure LoadedGraph where
  numPages : ℕ
  triples : List RawTriple
  dangle : List Bool
deriving DecidableEq

/-- The triples written for one line by the inner loop (lines 88-91):
one per destination, each weighted `1 / outdeg`. -/
def lineTriples (ln : InLine) : List RawTriple :=
  ln.dests.map (fun d => ⟨ln.source, d, 1 / (ln.dests.length : ℚ)⟩)

/-- The loop body for one line (lines 84-92), threading
`(dangle, triples, links_seen)`.  Lines with no destinations are
skipped entirely (their source id is never used as an index). -/
def processLine (n m : ℕ) (st : List Bool × List RawTriple × ℕ) (ln : InLine) :
    Except LoadErr (List Bool × List RawTriple × ℕ) :=
  let outdeg := ln.dests.length
  if outdeg = 0 then .ok st
  else if ln.source < -(n : ℤ) ∨ (n : ℤ) ≤ ln.source then .error .badDangleIndex
  else
    let dangle' := st.1.set (ln.source % (n : ℤ)).toNat false
    if m < st.2.2 + outdeg then .error .writeOverflow
    else .ok (dangle', st.2.1 ++ lineTriples ln, st.2.2 + outdeg)

/-- The `for line in csv.reader(f)` loop (lines 83-92), short-circuiting
on the first raised error. -/
def processLines (n m : ℕ) (st : List Bool × List RawTriple × ℕ) :
    List InLine → Except LoadErr (List Bool × List RawTriple × ℕ)
  | [] => .ok st
  | ln :: rest =>
    match processLine n m st ln with
    | .error e => .error e
    | .ok st' => processLines n m st' rest

/-- Is this triple's pair of ids rejected by the `coo_matrix` bounds check? -/
def badId (n : ℕ) (t : RawTriple) : Bool :=
  t.src < 0 || (n : ℤ) ≤ t.src || t.dst < 0 || (n : ℤ) ≤ t.dst

/-- `readLinksFile` (lines 73-95): run the line loop from an all-`True`
dangle vector and no triples, check the edge count, then build the COO
matrix (which bounds-checks every stored id). -/
def readLinksFile (numPages numLinks : ℕ) (lines : List InLine) :
    Except LoadErr LoadedGraph :=
  match processLines numPages numLinks (List.replicate numPages true, [], 0) lines with
  | .error e => .error e
  | .ok (dangle, triples, seen) =>
    if seen ≠ numLinks then .error .countMismatch
    else if triples.any (badId numPages) then .error .badCooIndex
    else .ok ⟨numPages, triples, dangle⟩

/-- The total number of destination entries parsed from the input:
what `links_seen` counts. -/
def totalDests (lines : List InLine) : ℕ :=
  (lines.map (fun ln => ln.dests.length)).sum

/-- The cumulative effect of the `dangle[source] = 0` writes (line 87)
over a list of lines, with numpy's negative-index wrap-around. -/
def applyDangles (n : ℕ) (dg : List Bool) (lines : List InLine) : List Bool :=
  lines.foldl
    (fun a ln => if ln.dests.isEmpty then a else a.set (ln.source % (n : ℤ)).toNat false) dg

/-! ### The spec's per-iteration update sequence (§4.2, steps 1-7)

Written from the specification's words, to be compared with
`pageRankStep`, which is translated from the source. -/

/-- The iteration body as the spec states it: `danglingMass`,
redistribution, teleportation, sparse product, normalization, and the
L1 residual between successive iterates. -/
def specIterStep {n : ℕ} (ts : List (Triple n)) (dangle : Fin n → Bool) (damp : ℚ)
    (r : Fin n → ℚ) : (Fin n → ℚ) × ℚ :=
  let r_old := r
  let danglingMass := damp * ∑ i, (if dangle i then r_old i else 0)
  let rA := fun i => danglingMass * uVec n i
  let rB := fun i => rA i + (1 - damp) * uVec n i
  let rC := fun i => rB i + damp * matVec ts r_old i
  let rD := fun i => rC i / l1norm rC
  (rD, l1norm (fun i => r_old i - rD i))

/-- The worked example's sparse structure (`n=3, m=4`, edges `0→1`,
`0→2`, `1→2`, `2→0`), as the loader builds it: weights `1/outdeg`. -/
def ts3 : List (Triple 3) :=
  [⟨0, 1, 1/2⟩, ⟨0, 2, 1/2⟩, ⟨1, 2, 1⟩, ⟨2, 0, 1⟩]

/-- The worked example's dangle vector: no node is dangling. -/
def dangle3 : Fin 3 → Bool := fun _ => false

/-- The source's loop body and the spec's update sequence agree. -/
theorem pageRankStep_eq_spec {n : ℕ} (ts : List (Triple n)) (dangle : Fin n → Bool)
    (damp : ℚ) (r : Fin n → ℚ) :
    pageRankStep ts dangle damp r = specIterStep ts dangle damp r := rfl

/-- Unfolding `pageRankGo` when the residual test fires. -/
theorem pageRankGo_stop {n : ℕ} (ts : List (Triple n)) (dangle : Fin n → Bool)
    (damp eps : ℚ) (fuel : ℕ) (r : Fin n → ℚ) (residual : ℚ) (iters : ℕ)
    (h : residual ≤ eps) :
    pageRankGo ts dangle damp eps fuel r residual iters = (r, residual, iters, "residual") := by
  cases fuel <;> simp [pageRankGo, h]

/-- Unfolding `pageRankGo` when fuel is exhausted (`iters == max_iters`). -/
theorem pageRankGo_exhaust {n : ℕ} (ts : List (Triple n)) (dangle : Fin n → Bool)
    (damp eps : ℚ) (r : Fin n → ℚ) (residual : ℚ) (iters : ℕ)
    (h : ¬ residual ≤ eps) :
    pageRankGo ts dangle damp eps 0 r residual iters = (r, residual, iters, "iters") := by
  simp [pageRankGo, h]

/-- Unfolding `pageRankGo` when another iteration runs. -/
theorem pageRankGo_iter {n : ℕ} (ts : List (Triple n)) (dangle : Fin n → Bool)
    (damp eps : ℚ) (f : ℕ) (r : Fin n → ℚ) (residual : ℚ) (iters : ℕ)
    (h : ¬ residual ≤ eps) :
    pageRankGo ts dangle damp eps (f + 1) r residual iters
      = pageRankGo ts dangle damp eps f (pageRankStep ts dangle damp r).1
          (pageRankStep ts dangle damp r).2 (iters + 1) := by
  simp [pageRankGo, h]

/-- C1: every iteration that the solver actually performs advances the
state exactly by the spec's update sequence (dangling mass, redistribution,
teleportation, damped sparse product, L1 normalization), and the residual
carried into the next stopping check is `‖r_old - r‖₁`. -/
theorem solve_iteration_matches_spec_sequence {n : ℕ} (ts : List (Triple n))
    (dangle : Fin n → Bool) (damp eps : ℚ) (f : ℕ) (r : Fin n → ℚ)
    (residual : ℚ) (iters : ℕ) (h : ¬ residual ≤ eps) :
    pageRankGo ts dangle damp eps (f + 1) r residual iters
      = pageRankGo ts dangle damp eps f (specIterStep ts dangle damp r).1
          (specIterStep ts dangle damp r).2 (iters + 1) := by
  rw [pageRankGo_iter ts dangle damp eps f r residual iters h, pageRankStep_eq_spec]

/-- Witness for C1 at a concrete state that fails the residual test. -/
theorem solve_iteration_matches_spec_sequence_witness :
    pageRankGo (n := 1) [] (fun _ => true) (1/2) 0 1 (uVec 1) 1 0
      = pageRankGo (n := 1) [] (fun _ => true) (1/2) 0 0
          (specIterStep [] (fun _ => true) (1/2) (uVec 1)).1
          (specIterStep [] (fun _ => true) (1/2) (uVec 1)).2 1 :=
  solve_iteration_matches_spec_sequence [] (fun _ => true) (1/2) 0 0 (uVec 1) 1 0
    (by norm_num)

/-- C3: with `maxIters = 0` the solver performs no iteration: it returns
the uniform vector, the residual sentinel, zero iterations, and stop
reason `"iters"`. -/
theorem maxIters_zero_returns_uniform {n : ℕ} (ts : List (Triple n))
    (dangle : Fin n → Bool) (damp eps : ℚ)
    (hd0 : 0 ≤ damp) (hd1 : damp ≤ 1) (he : 0 ≤ eps) :
    pageRank ts dangle damp eps 0 = (uVec n, eps + 1, 0, "iters") := by
  unfold pageRank
  have h : ¬ (eps + 1 ≤ eps) := by linarith
  exact pageRankGo_exhaust ts dangle damp eps (uVec n) (eps + 1) 0 h

/-- Witness for C3 with the worked example's graph and defaults. -/
theorem maxIters_zero_returns_uniform_witness :
    pageRank (n := 3) [] (fun _ => false) (85/100) (1/10000000) 0
      = (uVec 3, 1/10000000 + 1, 0, "iters") :=
  maxIters_zero_returns_uniform [] (fun _ => false) (85/100) (1/10000000)
    (by norm_num) (by norm_num) (by norm_num)

/-- C9: the residual check has priority over the iteration cap: whenever
the residual is already `≤ eps` at the top of the loop — in particular
when the fuel is simultaneously exhausted (`iters == maxIters`) — the
solver stops with reason `"residual"`, never `"iters"`. -/
theorem residual_check_beats_iteration_cap {n : ℕ} (ts : List (Triple n))
    (dangle : Fin n → Bool) (damp eps : ℚ) (fuel : ℕ) (r : Fin n → ℚ)
    (residual : ℚ) (iters : ℕ) (h : residual ≤ eps) :
    pageRankGo ts dangle damp eps fuel r residual iters = (r, residual, iters, "residual") :=
  pageRankGo_stop ts dangle damp eps fuel r residual iters h

/-- Witness for C9 at exhausted fuel (`iters == maxIters = 5`) with the
residual equal to `eps`: the returned reason is `"residual"`. -/
theorem residual_check_beats_iteration_cap_witness :
    pageRankGo (n := 1) [] (fun _ => true) (1/2) (1/10) 0 (uVec 1) (1/10) 5
      = (uVec 1, 1/10, 5, "residual") :=
  residual_check_beats_iteration_cap [] (fun _ => true) (1/2) (1/10) 0 (uVec 1) (1/10) 5
    (by norm_num)

/-! ### Loader invariants -/

/-- What a successful run of the line loop produces: `links_seen` counts
every destination entry, the triple array is the concatenation of each
line's triples in order, the dangle vector is the fold of the per-line
writes, and every line with destinations passed the `dangle[source]`
index check. -/
theorem processLines_ok_spec (n m : ℕ) (lines : List InLine) :
    ∀ (dg : List Bool) (tr : List RawTriple) (sn : ℕ)
      (dg' : List Bool) (tr' : List RawTriple) (sn' : ℕ),
      processLines n m (dg, tr, sn) lines = .ok (dg', tr', sn') →
      sn' = sn + totalDests lines ∧
      tr' = tr ++ lines.flatMap lineTriples ∧
      dg' = applyDangles n dg lines ∧
      ∀ ln ∈ lines, ln.dests ≠ [] → -(n : ℤ) ≤ ln.source ∧ ln.source < (n : ℤ) := by
  induction lines with
  | nil =>
    intro dg tr sn dg' tr' sn' h
    simp only [processLines, Except.ok.injEq, Prod.mk.injEq] at h
    obtain ⟨h1, h2, h3⟩ := h
    simp [totalDests, applyDangles, h1, h2, h3]
  | cons ln rest ih =>
    intro dg tr sn dg' tr' sn' h
    by_cases hempty : ln.dests.length = 0
    · have hnil : ln.dests = [] := List.length_eq_zero.mp hempty
      rw [processLines, processLine] at h
      simp only [hempty, if_pos rfl] at h
      obtain ⟨ha, hb, hc, hd⟩ := ih dg tr sn dg' tr' sn' h
      refine ⟨?_, ?_, ?_, ?_⟩
      · simpa [totalDests, hnil] using ha
      · simpa [hnil, lineTriples] using hb
      · simpa [applyDangles, hnil] using hc
      · intro l hl hne
        rcases List.mem_cons.mp hl with hl | hl
        · exact absurd (hl ▸ hne) (by simp [hnil])
        · exact hd l hl hne
    · by_cases hsrc : ln.source < -(n : ℤ) ∨ (n : ℤ) ≤ ln.source
      · rw [processLines, processLine] at h
        simp [hempty, hsrc] at h
      · by_cases hover : m < sn + ln.dests.length
        · rw [processLines, processLine] at h
          simp [hempty, hsrc, hover] at h
        · rw [processLines, processLine] at h
          simp only [hempty, if_neg hempty, hsrc, if_neg hsrc, hover, if_neg hover] at h
          obtain ⟨ha, hb, hc, hd⟩ :=
            ih (dg.set (ln.source % (n : ℤ)).toNat false) (tr ++ lineTriples ln)
              (sn + ln.dests.length) dg' tr' sn' h
          push_neg at hsrc
          refine ⟨?_, ?_, ?_, ?_⟩
          · simp only [totalDests, List.map_cons, List.sum_cons] at ha ⊢
            omega
          · simp [hb, totalDests, List.append_assoc]
          · have hne : ¬ (ln.dests = []) := fun hh => hempty (by simp [hh])
            simpa [applyDangles, hne] using hc
          · intro l hl hne
            rcases List.mem_cons.mp hl with hl | hl
            · exact hl ▸ ⟨hsrc.1, hsrc.2⟩
            · exact hd l hl hne

/-- One step of `applyDangles`. -/
theorem applyDangles_cons (n : ℕ) (dg : List Bool) (ln : InLine) (rest : List InLine) :
    applyDangles n dg (ln :: rest)
      = applyDangles n
          (if ln.dests.isEmpty then dg else dg.set (ln.source % (n : ℤ)).toNat false)
          rest := rfl

/-- Reading back the dangle vector after the per-line writes: an entry is
`false` iff it started out `false` or some line with destinations wrote
its (wrapped) source index there. -/
theorem applyDangles_getD_false (n : ℕ) (lines : List InLine) :
    ∀ dg : List Bool, dg.length = n →
      (∀ ln ∈ lines, ln.dests ≠ [] → -(n : ℤ) ≤ ln.source ∧ ln.source < (n : ℤ)) →
      ∀ i : ℕ,
        ((applyDangles n dg lines).getD i true = false ↔
          dg.getD i true = false ∨
            ∃ ln ∈ lines, ln.dests ≠ [] ∧ (ln.source % (n : ℤ)).toNat = i) := by
  induction lines with
  | nil => intro dg _ _ i; simp [applyDangles]
  | cons ln rest ih =>
    intro dg hlen hsrc i
    rw [applyDangles_cons]
    by_cases hnil : ln.dests = []
    · rw [if_pos (by simp [hnil])]
      rw [ih dg hlen (fun l hl => hsrc l (List.mem_cons_of_mem _ hl)) i]
      simp only [List.exists_mem_cons_iff, hnil, ne_eq, not_true_eq_false, false_and,
        false_or]
    · rw [if_neg (by simp [hnil])]
      obtain ⟨hb1, hb2⟩ := hsrc ln (List.mem_cons_self _ _) hnil
      have hj : (ln.source % (n : ℤ)).toNat < n := by
        have h1 : 0 ≤ ln.source % (n : ℤ) := Int.emod_nonneg _ (by omega)
        have h2 : ln.source % (n : ℤ) < n := Int.emod_lt_of_pos _ (by omega)
        omega
      rw [ih (dg.set (ln.source % (n : ℤ)).toNat false)
        (by rw [List.length_set]; exact hlen)
        (fun l hl => hsrc l (List.mem_cons_of_mem _ hl)) i]
      have hset : (dg.set (ln.source % (n : ℤ)).toNat false).getD i true = false ↔
          ((ln.source % (n : ℤ)).toNat = i ∨ dg.getD i true = false) := by
        rcases eq_or_ne (ln.source % (n : ℤ)).toNat i with he | hne
        · rw [← he]
          simp [List.getD_eq_getElem?_getD, List.getElem?_set, hlen, hj]
        · simp [List.getD_eq_getElem?_getD, List.getElem?_set, hne]
      rw [hset]
      simp only [List.exists_mem_cons_iff, hnil, ne_eq, not_false_eq_true, true_and]
      tauto

/-- A successful load means: the line loop succeeded producing the
returned dangle vector and triples, `links_seen` matched the declared
edge count, and every stored id passed the COO bounds check. -/
theorem readLinksFile_ok_elim (numPages numLinks : ℕ) (lines : List InLine)
    (g : LoadedGraph) (h : readLinksFile numPages numLinks lines = .ok g) :
    processLines numPages numLinks (List.replicate numPages true, [], 0) lines
        = .ok (g.dangle, g.triples, numLinks) ∧
      g.numPages = numPages ∧
      g.triples.any (badId numPages) = false := by
  unfold readLinksFile at h
  cases hp : processLines numPages numLinks (List.replicate numPages true, [], 0) lines with
  | error e => rw [hp] at h; exact absurd h (by simp)
  | ok st =>
    obtain ⟨dg, tr, sn⟩ := st
    rw [hp] at h
    simp only at h
    split_ifs at h with h1 h2
    · have hg : (⟨numPages, tr, dg⟩ : LoadedGraph) = g := Except.ok.inj h
      push_neg at h1
      subst hg
      subst h1
      exact ⟨rfl, rfl, by simpa using h2⟩

/-- Membership in the loader's triple list, line by line. -/
theorem mem_flatMap_lineTriples (lines : List InLine) (t : RawTriple) :
    t ∈ lines.flatMap lineTriples ↔
      ∃ ln ∈ lines, ∃ d ∈ ln.dests, t = ⟨ln.source, d, 1 / (ln.dests.length : ℚ)⟩ := by
  simp only [List.mem_flatMap, lineTriples, List.mem_map]
  constructor
  · rintro ⟨ln, hln, d, hd, rfl⟩; exact ⟨ln, hln, d, hd, rfl⟩
  · rintro ⟨ln, hln, d, hd, rfl⟩; exact ⟨ln, hln, d, hd, rfl⟩

/-- The id bounds that a passed COO check gives for every stored triple. -/
theorem ids_in_range_of_ok (numPages numLinks : ℕ) (lines : List InLine)
    (g : LoadedGraph) (hok : readLinksFile numPages numLinks lines = .ok g) :
    ∀ t ∈ g.triples, 0 ≤ t.src ∧ t.src < (numPages : ℤ) ∧
      0 ≤ t.dst ∧ t.dst < (numPages : ℤ) := by
  obtain ⟨_, _, hco⟩ := readLinksFile_ok_elim _ _ _ _ hok
  intro t ht
  rw [List.any_eq_false] at hco
  have := hco t ht
  simp only [badId, Bool.or_eq_true, decide_eq_true_eq, not_or] at this
  exact ⟨by omega, by omega, by omega, by omega⟩

/-- C5: on every input the loader accepts, the dangling flag of node
`i < n` is `true` exactly when no stored triple has source `i`. -/
theorem dangle_iff_no_source_triple (numPages numLinks : ℕ) (lines : List InLine)
    (g : LoadedGraph) (hok : readLinksFile numPages numLinks lines = .ok g)
    (i : ℕ) (hi : i < numPages) :
    (g.dangle.getD i true = true ↔ ∀ t ∈ g.triples, t.src ≠ (i : ℤ)) := by
  obtain ⟨hp, hnp, hco⟩ := readLinksFile_ok_elim _ _ _ _ hok
  obtain ⟨hsn, htr, hdg, hrange⟩ := processLines_ok_spec _ _ _ _ _ _ _ _ _ hp
  simp only [List.nil_append] at htr
  have hids := ids_in_range_of_ok _ _ _ _ hok
  have hchar := applyDangles_getD_false numPages lines (List.replicate numPages true)
    (by simp) hrange i
  have hrepl : (List.replicate numPages true).getD i true = true := by
    simp [List.getD_eq_getElem?_getD, List.getElem?_replicate, hi]
  rw [hdg, show ∀ b : Bool, (b = true ↔ ∀ t ∈ g.triples, t.src ≠ (i : ℤ)) ↔
      (¬ b = false ↔ ∀ t ∈ g.triples, t.src ≠ (i : ℤ)) from by simp, hchar, hrepl]
  simp only [Bool.true_eq_false, false_or]
  constructor
  · intro hno t ht hteq
    obtain ⟨ln, hln, d, hd, rfl⟩ := (mem_flatMap_lineTriples lines t).mp (htr ▸ ht)
    have hdne : ln.dests ≠ [] := List.ne_nil_of_mem hd
    obtain ⟨hr1, hr2⟩ := hrange ln hln hdne
    simp only at hteq
    exact hno ⟨ln, hln, hdne, by rw [Int.emod_eq_of_lt (by omega) (by omega)]; omega⟩
  · rintro hall ⟨ln, hln, hdne, htonat⟩
    obtain ⟨d, hd⟩ := List.exists_mem_of_ne_nil _ hdne
    have hmem : (⟨ln.source, d, 1 / (ln.dests.length : ℚ)⟩ : RawTriple) ∈ g.triples :=
      htr ▸ (mem_flatMap_lineTriples lines _).mpr ⟨ln, hln, d, hd, rfl⟩
    obtain ⟨hs0, _, _, _⟩ := hids _ hmem
    obtain ⟨hr1, hr2⟩ := hrange ln hln hdne
    simp only at hs0
    refine hall _ hmem ?_
    simp only
    rw [Int.emod_eq_of_lt hs0 hr2] at htonat
    omega

/-- Witness for C5 on the accepted input `n=2, m=1`, line `0, 1`:
node `1` is dangling and indeed no triple has source `1`. -/
theorem dangle_iff_no_source_triple_witness :
    ((⟨2, [⟨0, 1, 1⟩], [false, true]⟩ : LoadedGraph).dangle.getD 1 true = true ↔
      ∀ t ∈ (⟨2, [⟨0, 1, 1⟩], [false, true]⟩ : LoadedGraph).triples, t.src ≠ (1 : ℤ)) :=
  dangle_iff_no_source_triple 2 1 [⟨0, [1]⟩] ⟨2, [⟨0, 1, 1⟩], [false, true]⟩
    (by simp [readLinksFile, processLines, processLine, lineTriples, badId])
    1 (by norm_num)

/-- The weights with source `s`, summed line by line: each line with
destinations and source `s` contributes exactly `1`, every other line `0`. -/
theorem weight_sum_by_line (s : ℤ) (lines : List InLine) :
    (((lines.flatMap lineTriples).filter (fun t => t.src = s)).map (fun t => t.w)).sum
      = (lines.map (fun ln => if ln.source = s ∧ ln.dests ≠ [] then (1 : ℚ) else 0)).sum := by
  induction lines with
  | nil => simp
  | cons ln rest ih =>
    simp only [List.flatMap_cons, List.filter_append, List.map_append, List.sum_append,
      List.map_cons, List.sum_cons, ih]
    congr 1
    by_cases hs : ln.source = s
    · by_cases hd : ln.dests = []
      · simp [lineTriples, hd]
      · rw [if_pos ⟨hs, hd⟩]
        have hkeep : (lineTriples ln).filter (fun t => t.src = s) = lineTriples ln := by
          rw [List.filter_eq_self]
          intro t ht
          obtain ⟨d, hd', rfl⟩ := List.mem_map.mp ht
          simp [hs]
        rw [hkeep]
        simp only [lineTriples, List.map_map, Function.comp_def]
        rw [List.map_const', List.sum_replicate, nsmul_eq_mul]
        have hne : (ln.dests.length : ℚ) ≠ 0 :=
          Nat.cast_ne_zero.mpr (fun h0 => hd (List.length_eq_zero.mp h0))
        field_simp
    · rw [if_neg (by tauto)]
      have hdrop : (lineTriples ln).filter (fun t => t.src = s) = [] := by
        rw [List.filter_eq_nil]
        intro t ht
        obtain ⟨d, hd', rfl⟩ := List.mem_map.mp (by simpa [lineTriples] using ht)
        simp [hs]
      simp [hdrop]

/-- With pairwise-distinct sources, the per-line indicator sums to `1` as
soon as one line with destinations has source `s`. -/
theorem indicator_sum_unique (s : ℤ) (lines : List InLine)
    (hdist : lines.Pairwise (fun a b => a.source ≠ b.source))
    (hex : ∃ ln ∈ lines, ln.source = s ∧ ln.dests ≠ []) :
    (lines.map (fun ln => if ln.source = s ∧ ln.dests ≠ [] then (1 : ℚ) else 0)).sum = 1 := by
  induction lines with
  | nil => simp at hex
  | cons ln rest ih =>
    simp only [List.map_cons, List.sum_cons]
    rcases List.pairwise_cons.mp hdist with ⟨hhead, htail⟩
    by_cases hln : ln.source = s ∧ ln.dests ≠ []
    · rw [if_pos hln]
      have hrest : (rest.map
          (fun l => if l.source = s ∧ l.dests ≠ [] then (1 : ℚ) else 0)).sum = 0 := by
        apply List.sum_eq_zero
        intro x hx
        obtain ⟨l, hl, rfl⟩ := List.mem_map.mp hx
        rw [if_neg]
        rintro ⟨h1, _⟩
        exact hhead l hl (hln.1.trans h1.symm)
      rw [hrest]; ring
    · rw [if_neg hln]
      obtain ⟨l, hl, hprop⟩ := hex
      rcases List.mem_cons.mp hl with rfl | hl'
      · exact absurd hprop hln
      · rw [ih htail ⟨l, hl', hprop⟩]; ring

/-- C2 (amended): on an accepted input in which each source id appears on
at most one line, the stored weights of every non-dangling node sum to
exactly `1`.  (Each triple of a line with `outdeg` destinations carries
weight `1/outdeg`.) -/
theorem nondangling_weights_sum_one (numPages numLinks : ℕ) (lines : List InLine)
    (g : LoadedGraph) (hok : readLinksFile numPages numLinks lines = .ok g)
    (hdist : lines.Pairwise (fun a b => a.source ≠ b.source))
    (i : ℕ) (hi : i < numPages)
    (hnd : g.dangle.getD i true = false) :
    ((g.triples.filter (fun t => t.src = (i : ℤ))).map (fun t => t.w)).sum = 1 := by
  obtain ⟨hp, hnp, hco⟩ := readLinksFile_ok_elim _ _ _ _ hok
  obtain ⟨hsn, htr, hdg, hrange⟩ := processLines_ok_spec _ _ _ _ _ _ _ _ _ hp
  simp only [List.nil_append] at htr
  have hchar := applyDangles_getD_false numPages lines (List.replicate numPages true)
    (by simp) hrange i
  rw [hdg, hchar] at hnd
  have hrepl : (List.replicate numPages true).getD i true = true := by
    simp [List.getD_eq_getElem?_getD, List.getElem?_replicate, hi]
  rcases hnd with hfalse | ⟨ln, hln, hdne, htonat⟩
  · rw [hrepl] at hfalse; exact absurd hfalse (by simp)
  · have hids := ids_in_range_of_ok _ _ _ _ hok
    obtain ⟨d, hd⟩ := List.exists_mem_of_ne_nil _ hdne
    have hmem : (⟨ln.source, d, 1 / (ln.dests.length : ℚ)⟩ : RawTriple) ∈ g.triples :=
      htr ▸ (mem_flatMap_lineTriples lines _).mpr ⟨ln, hln, d, hd, rfl⟩
    obtain ⟨hs0, _, _, _⟩ := hids _ hmem
    simp only at hs0
    obtain ⟨hr1, hr2⟩ := hrange ln hln hdne
    rw [Int.emod_eq_of_lt hs0 hr2] at htonat
    have hsrc : ln.source = (i : ℤ) := by omega
    rw [htr, weight_sum_by_line]
    exact indicator_sum_unique _ _ hdist ⟨ln, hln, hsrc, hdne⟩

/-- C2 as stated is false: the loader accepts an input in which source
`0` appears on two lines, marks node `0` non-dangling, and its stored
weights then sum to `2`, not `1`. -/
theorem duplicate_source_weights_counterexample :
    readLinksFile 1 2 [⟨0, [0]⟩, ⟨0, [0]⟩]
        = .ok ⟨1, [⟨0, 0, 1⟩, ⟨0, 0, 1⟩], [false]⟩ ∧
      ((⟨1, [⟨0, 0, 1⟩, ⟨0, 0, 1⟩], [false]⟩ : LoadedGraph).dangle.getD 0 true = false) ∧
      ((((⟨1, [⟨0, 0, 1⟩, ⟨0, 0, 1⟩], [false]⟩ : LoadedGraph).triples.filter
          (fun t => t.src = (0 : ℤ))).map (fun t => t.w)).sum = 2) := by
  refine ⟨by simp [readLinksFile, processLines, processLine, lineTriples, badId], rfl, ?_⟩
  norm_num [List.filter]

/-- Witness for amended C2 on the worked example's input: the weights of
non-dangling node `0` sum to `1`. -/
theorem nondangling_weights_sum_one_witness :
    (((⟨3, [⟨0, 1, 1/2⟩, ⟨0, 2, 1/2⟩, ⟨1, 2, 1⟩, ⟨2, 0, 1⟩], [false, false, false]⟩ :
        LoadedGraph).triples.filter (fun t => t.src = ((0 : ℕ) : ℤ))).map
        (fun t => t.w)).sum = 1 :=
  nondangling_weights_sum_one 3 4 [⟨0, [1, 2]⟩, ⟨1, [2]⟩, ⟨2, [0]⟩]
    ⟨3, [⟨0, 1, 1/2⟩, ⟨0, 2, 1/2⟩, ⟨1, 2, 1⟩, ⟨2, 0, 1⟩], [false, false, false]⟩
    (by simp [readLinksFile, processLines, processLine, lineTriples, badId])
    (by norm_num [List.pairwise_cons]) 0 (by norm_num) rfl

/-- If the counter plus all remaining destination entries fits in `m`,
the line loop can only fail at a `dangle` index error, and on success the
counter ends at exactly `sn + totalDests lines`. -/
theorem processLines_total_le (n m : ℕ) (lines : List InLine) :
    ∀ (dg : List Bool) (tr : List RawTriple) (sn : ℕ),
      sn + totalDests lines ≤ m →
      (∃ st', processLines n m (dg, tr, sn) lines = .ok st' ∧
        st'.2.2 = sn + totalDests lines) ∨
      processLines n m (dg, tr, sn) lines = .error .badDangleIndex := by
  induction lines with
  | nil => intro dg tr sn _; exact .inl ⟨(dg, tr, sn), rfl, by simp [totalDests]⟩
  | cons ln rest ih =>
    intro dg tr sn h
    have htot : totalDests (ln :: rest) = ln.dests.length + totalDests rest := by
      simp [totalDests]
    rw [htot] at h
    by_cases hempty : ln.dests.length = 0
    · rw [processLines, processLine]
      simp only [hempty, if_pos rfl]
      rcases ih dg tr sn (by omega) with ⟨st', hok, hsum⟩ | herr
      · exact .inl ⟨st', hok, by rw [hsum, htot]; omega⟩
      · exact .inr herr
    · by_cases hsrc : ln.source < -(n : ℤ) ∨ (n : ℤ) ≤ ln.source
      · rw [processLines, processLine]
        simp only [hempty, if_neg hempty, hsrc, if_pos hsrc]
        exact .inr rfl
      · have hnov : ¬ m < sn + ln.dests.length := by omega
        rw [processLines, processLine]
        simp only [hempty, if_neg hempty, hsrc, if_neg hsrc, hnov, if_neg hnov]
        rcases ih (dg.set (ln.source % (n : ℤ)).toNat false) (tr ++ lineTriples ln)
            (sn + ln.dests.length) (by omega) with ⟨st', hok, hsum⟩ | herr
        · exact .inl ⟨st', hok, by rw [hsum, htot]; omega⟩
        · exact .inr herr

/-- C6: if the number of parsed destination entries differs from the
declared edge count the loader fails (no graph is returned), and when
the counts agree neither count-mismatch failure — the mid-parse array
overflow or the final `assert` — can be the outcome. -/
theorem edge_count_check (numPages numLinks : ℕ) (lines : List InLine) :
    (totalDests lines ≠ numLinks →
      ∃ e, readLinksFile numPages numLinks lines = .error e) ∧
    (totalDests lines = numLinks →
      readLinksFile numPages numLinks lines ≠ .error .writeOverflow ∧
      readLinksFile numPages numLinks lines ≠ .error .countMismatch) := by
  constructor
  · intro hne
    cases hres : readLinksFile numPages numLinks lines with
    | error e => exact ⟨e, rfl⟩
    | ok g =>
      obtain ⟨hp, _, _⟩ := readLinksFile_ok_elim _ _ _ _ hres
      obtain ⟨hsn, _, _, _⟩ := processLines_ok_spec _ _ _ _ _ _ _ _ _ hp
      omega
  · intro heq
    unfold readLinksFile
    rcases processLines_total_le numPages numLinks lines
        (List.replicate numPages true) [] 0 (by omega) with ⟨st', hok, hsum⟩ | herr
    · obtain ⟨dg, tr, sn⟩ := st'
      simp only at hsum
      rw [hok]
      simp only
      rw [if_neg (by omega)]
      by_cases hbad : tr.any (badId numPages)
      · rw [if_pos hbad]; exact ⟨by simp, by simp⟩
      · rw [if_neg hbad]; exact ⟨by simp, by simp⟩
    · rw [herr]; exact ⟨by simp, by simp⟩

/-- Witness for C6: a declared edge count of `5` against `2` parsed
destinations makes the loader fail. -/
theorem edge_count_check_witness :
    ∃ e, readLinksFile 3 5 [⟨0, [1, 2]⟩] = .error e :=
  (edge_count_check 3 5 [⟨0, [1, 2]⟩]).1 (by norm_num [totalDests])

/-- C7 as stated is false: this input contains the source id `5`, far
outside `[0, 1)`, on a line with no destinations — and the loader accepts
it without touching that id. -/
theorem out_of_range_id_accepted_counterexample :
    readLinksFile 1 0 [⟨5, []⟩] = .ok ⟨1, [], [true]⟩ ∧
      ((5 : ℤ) < 0 ∨ (1 : ℤ) ≤ (5 : ℤ)) := by
  exact ⟨by simp [readLinksFile, processLines, processLine, badId], by norm_num⟩

/-- C7 (amended): an out-of-range id the loader actually uses — the
source of a line that has destinations, or any destination id — makes
`readLinksFile` fail with no partial graph; an out-of-range source on a
destination-less line is silently ignored. -/
theorem used_out_of_range_id_fails (numPages numLinks : ℕ) (lines : List InLine)
    (h : ∃ ln ∈ lines, ln.dests ≠ [] ∧
      ((ln.source < 0 ∨ (numPages : ℤ) ≤ ln.source) ∨
        ∃ d ∈ ln.dests, d < 0 ∨ (numPages : ℤ) ≤ d)) :
    ∃ e, readLinksFile numPages numLinks lines = .error e := by
  cases hres : readLinksFile numPages numLinks lines with
  | error e => exact ⟨e, rfl⟩
  | ok g =>
    exfalso
    obtain ⟨ln, hln, hdne, hbad⟩ := h
    obtain ⟨hp, _, _⟩ := readLinksFile_ok_elim _ _ _ _ hres
    obtain ⟨_, htr, _, hrange⟩ := processLines_ok_spec _ _ _ _ _ _ _ _ _ hp
    simp only [List.nil_append] at htr
    have hids := ids_in_range_of_ok _ _ _ _ hres
    rcases hbad with hbadsrc | ⟨d, hd, hbadd⟩
    · obtain ⟨d, hd⟩ := List.exists_mem_of_ne_nil _ hdne
      have hmem : (⟨ln.source, d, 1 / (ln.dests.length : ℚ)⟩ : RawTriple) ∈ g.triples :=
        htr ▸ (mem_flatMap_lineTriples lines _).mpr ⟨ln, hln, d, hd, rfl⟩
      obtain ⟨h1, h2, _, _⟩ := hids _ hmem
      simp only at h1 h2
      rcases hbadsrc with hb | hb <;> omega
    · have hmem : (⟨ln.source, d, 1 / (ln.dests.length : ℚ)⟩ : RawTriple) ∈ g.triples :=
        htr ▸ (mem_flatMap_lineTriples lines _).mpr ⟨ln, hln, d, hd, rfl⟩
      obtain ⟨_, _, h3, h4⟩ := hids _ hmem
      simp only at h3 h4
      rcases hbadd with hb | hb <;> omega

/-- Witness for amended C7: destination id `5` with only `3` pages makes
the loader fail. -/
theorem used_out_of_range_id_fails_witness :
    ∃ e, readLinksFile 3 1 [⟨0, [5]⟩] = .error e :=
  used_out_of_range_id_fails 3 1 [⟨0, [5]⟩]
    ⟨⟨0, [5]⟩, by norm_num, by norm_num, .inr ⟨5, by norm_num, by norm_num⟩⟩

/-! ### Mass conservation of the iteration step -/

/-- The uniform vector sums to `1` whenever `n ≥ 1`. -/
theorem sum_uVec (n : ℕ) (hn : 0 < n) : ∑ i, uVec n i = 1 := by
  have hne : (n : ℚ) ≠ 0 := Nat.cast_ne_zero.mpr hn.ne'
  simp only [uVec, Finset.sum_const, Finset.card_univ, Fintype.card_fin, nsmul_eq_mul]
  field_simp

/-- Summing the sparse product over all rows collects each stored
triple's `w * r src` exactly once. -/
theorem sum_matVec {n : ℕ} (ts : List (Triple n)) (r : Fin n → ℚ) :
    ∑ i, matVec ts r i = (ts.map (fun t => t.w * r t.src)).sum := by
  induction ts with
  | nil => simp [matVec]
  | cons t ts ih =>
    simp only [matVec, List.map_cons, List.sum_cons] at *
    rw [Finset.sum_add_distrib, ih]
    congr 1
    rw [Finset.sum_ite_eq]
    simp

/-- Grouping the triple sum by source node. -/
theorem triple_sum_by_source {n : ℕ} (ts : List (Triple n)) (r : Fin n → ℚ) :
    (ts.map (fun t => t.w * r t.src)).sum
      = ∑ s, ((ts.filter (fun t => t.src = s)).map (fun t => t.w)).sum * r s := by
  induction ts with
  | nil => simp
  | cons t ts ih =>
    simp only [List.map_cons, List.sum_cons, ih]
    have hsplit : ∀ s : Fin n,
        (((t :: ts).filter (fun x => x.src = s)).map (fun x => x.w)).sum * r s
          = (if t.src = s then t.w * r s else 0)
            + ((ts.filter (fun x => x.src = s)).map (fun x => x.w)).sum * r s := by
      intro s
      by_cases hts : t.src = s
      · simp [List.filter_cons, hts, add_mul]
      · simp [List.filter_cons, hts]
    rw [Finset.sum_congr rfl (fun s _ => hsplit s), Finset.sum_add_distrib]
    congr 1
    rw [Finset.sum_ite_eq]
    simp

/-- C10: under the loader's output contract — non-negative weights, no
triple out of a dangling node, each non-dangling node's weights summing
to `1` — and for any probability vector `r_old`, the un-normalized
vector of lines 62-64 is entrywise non-negative and has L1 norm exactly
`1`, so the normalization of line 65 never divides by zero. -/
theorem preNorm_is_distribution {n : ℕ} (hn : 0 < n) (ts : List (Triple n))
    (dangle : Fin n → Bool) (damp : ℚ) (hd0 : 0 ≤ damp) (hd1 : damp ≤ 1)
    (hw : ∀ t ∈ ts, 0 ≤ t.w)
    (hdang : ∀ s, dangle s = true → ∀ t ∈ ts, t.src ≠ s)
    (hstoch : ∀ s, dangle s = false →
      ((ts.filter (fun t => t.src = s)).map (fun t => t.w)).sum = 1)
    (r : Fin n → ℚ) (hr0 : ∀ i, 0 ≤ r i) (hr1 : ∑ i, r i = 1) :
    (∀ i, 0 ≤ preNorm ts dangle damp r i) ∧
      l1norm (preNorm ts dangle damp r) = 1 := by
  have hu : ∀ i, 0 ≤ uVec n i := by
    intro i
    unfold uVec
    positivity
  have hdd : 0 ≤ danglingDot dangle r := by
    apply Finset.sum_nonneg
    intro j _
    cases h : dangle j <;> simp [h, hr0 j]
  have hmv : ∀ i, 0 ≤ matVec ts r i := by
    intro i
    apply List.sum_nonneg
    intro x hx
    obtain ⟨t, ht, rfl⟩ := List.mem_map.mp hx
    by_cases h : t.dst = i
    · simpa [h] using mul_nonneg (hw t ht) (hr0 t.src)
    · simp [h]
  have hpos : ∀ i, 0 ≤ preNorm ts dangle damp r i := by
    intro i
    unfold preNorm
    have h1 : (0:ℚ) ≤ damp * danglingDot dangle r * uVec n i :=
      mul_nonneg (mul_nonneg hd0 hdd) (hu i)
    have h2 : (0:ℚ) ≤ (1 - damp) * uVec n i := mul_nonneg (by linarith) (hu i)
    have h3 : (0:ℚ) ≤ damp * matVec ts r i := mul_nonneg hd0 (hmv i)
    linarith
  refine ⟨hpos, ?_⟩
  have hsplit : danglingDot dangle r + (∑ s, if dangle s then 0 else r s) = 1 := by
    unfold danglingDot
    rw [← Finset.sum_add_distrib, ← hr1]
    apply Finset.sum_congr rfl
    intro s _
    cases h : dangle s <;> simp [h]
  have hmv_total : ∑ i, matVec ts r i = ∑ s, (if dangle s then 0 else r s) := by
    rw [sum_matVec, triple_sum_by_source]
    apply Finset.sum_congr rfl
    intro s _
    cases h : dangle s
    · rw [hstoch s h]
      simp [h]
    · have hnil : ts.filter (fun t => t.src = s) = [] := by
        rw [List.filter_eq_nil]
        intro t ht
        simpa using hdang s h t ht
      simp [hnil, h]
  have hB : (∑ s, if dangle s then 0 else r s) = 1 - danglingDot dangle r := by
    linarith
  have htotal : ∑ i, preNorm ts dangle damp r i = 1 := by
    unfold preNorm
    rw [Finset.sum_add_distrib, Finset.sum_add_distrib, ← Finset.mul_sum, ← Finset.mul_sum,
      ← Finset.mul_sum, sum_uVec n hn, hmv_total, hB]
    ring
  unfold l1norm
  rw [Finset.sum_congr rfl (fun i _ => abs_of_nonneg (hpos i))]
  exact htotal

/-- Witness for C10 on the worked example's structure at the uniform
vector. -/
theorem preNorm_is_distribution_witness :
    (∀ i, 0 ≤ preNorm ts3 dangle3 (85/100) (uVec 3) i) ∧
      l1norm (preNorm ts3 dangle3 (85/100) (uVec 3)) = 1 :=
  preNorm_is_distribution (by norm_num) ts3 dangle3 (85/100) (by norm_num) (by norm_num)
    (by
      intro t ht
      simp [ts3] at ht
      rcases ht with rfl | rfl | rfl | rfl <;> norm_num)
    (by intro s hs; simp [dangle3] at hs)
    (by
      intro s _
      fin_cases s <;> norm_num [ts3, List.filter_cons, Fin.ext_iff])
    (uVec 3) (by intro i; norm_num [uVec]) (sum_uVec 3 (by norm_num))

/-- C4: with no edges every node is dangling; with the default
parameters one iteration reproduces the uniform vector exactly, the
residual is `0`, and the solver stops with reason `"residual"` after
exactly 1 iteration. -/
theorem no_edges_converges_in_one_iteration (n : ℕ) (hn : 0 < n) :
    pageRank (n := n) [] (fun _ => true) (85/100) (1/10000000) 50
      = (uVec n, 0, 1, "residual") := by
  have hl1 : l1norm (uVec n) = 1 := by
    unfold l1norm
    rw [Finset.sum_congr rfl (fun i _ => abs_of_nonneg (by unfold uVec; positivity))]
    exact sum_uVec n hn
  have hstep : pageRankStep (n := n) [] (fun _ => true) (85/100) (uVec n)
      = (uVec n, 0) := by
    have hdd : danglingDot (n := n) (fun _ => true) (uVec n) = 1 := by
      unfold danglingDot
      simp only [if_pos]
      exact sum_uVec n hn
    have hmv : matVec (n := n) [] (uVec n) = fun _ => 0 := by
      funext i
      simp [matVec]
    have hpre : preNorm (n := n) [] (fun _ => true) (85/100) (uVec n) = uVec n := by
      funext i
      unfold preNorm
      rw [hdd, hmv]
      ring
    simp only [pageRankStep]
    rw [hpre, hl1]
    simp [l1norm]
  unfold pageRank
  rw [pageRankGo_iter _ _ _ _ _ _ _ _ (by norm_num), hstep]
  exact pageRankGo_stop _ _ _ _ _ _ _ _ (by norm_num)

/-- Witness for C4 at `n = 3`. -/
theorem no_edges_converges_in_one_iteration_witness :
    pageRank (n := 3) [] (fun _ => true) (85/100) (1/10000000) 50
      = (uVec 3, 0, 1, "residual") :=
  no_edges_converges_in_one_iteration 3 (by norm_num)


/-! ### Symbolic evaluation of one iteration on the worked example -/

/-- One application of lines 62-64 on the worked example's structure. -/
theorem step3_preNorm (a b c : ℚ) :
    preNorm ts3 dangle3 (85/100) ![a, b, c]
      = ![1/20 + 17/20 * c, 1/20 + 17/40 * a, 1/20 + 17/40 * a + 17/20 * b] := by
  funext i
  fin_cases i <;>
    simp [preNorm, danglingDot, dangle3, matVec, ts3, uVec, Fin.sum_univ_three,
      Fin.ext_iff] <;> ring

/-- On a probability vector, the un-normalized iterate has L1 norm 1. -/
theorem step3_norm (a b c : ℚ) (ha : 0 ≤ a) (hb : 0 ≤ b) (hc : 0 ≤ c)
    (hsum : a + b + c = 1) :
    l1norm ![1/20 + 17/20 * c, 1/20 + 17/40 * a, 1/20 + 17/40 * a + 17/20 * b] = 1 := by
  rw [l1norm, Fin.sum_univ_three]
  simp only [Matrix.cons_val_zero, Matrix.cons_val_one, Matrix.head_cons,
    Matrix.cons_val_two, Matrix.tail_cons]
  rw [abs_of_nonneg (by linarith), abs_of_nonneg (by linarith), abs_of_nonneg (by linarith)]
  linarith

/-- The rank vector produced by one iteration on the worked example. -/
theorem step3_vec (a b c : ℚ) (ha : 0 ≤ a) (hb : 0 ≤ b) (hc : 0 ≤ c)
    (hsum : a + b + c = 1) :
    (pageRankStep ts3 dangle3 (85/100) ![a, b, c]).1
      = ![1/20 + 17/20 * c, 1/20 + 17/40 * a, 1/20 + 17/40 * a + 17/20 * b] := by
  simp only [pageRankStep, step3_preNorm]
  simp only [step3_norm a b c ha hb hc hsum, div_one]

/-- The residual produced by one iteration on the worked example. -/
theorem step3_res (a b c : ℚ) (ha : 0 ≤ a) (hb : 0 ≤ b) (hc : 0 ≤ c)
    (hsum : a + b + c = 1) :
    (pageRankStep ts3 dangle3 (85/100) ![a, b, c]).2
      = |a - (1/20 + 17/20 * c)| + |b - (1/20 + 17/40 * a)|
          + |c - (1/20 + 17/40 * a + 17/20 * b)| := by
  simp only [pageRankStep, step3_preNorm]
  simp only [step3_norm a b c ha hb hc hsum, div_one]
  rw [l1norm, Fin.sum_univ_three]
  simp [Matrix.cons_val_zero, Matrix.cons_val_one, Matrix.head_cons,
    Matrix.cons_val_two, Matrix.tail_cons]

/-! ### The worked example (C8): 32 exact iterations -/

/-- Iteration 1 of the worked example: the next rank vector. -/
theorem c8v0 : (pageRankStep ts3 dangle3 (85/100) ![1/3, 1/3, 1/3]).1 = ![1/3, 23/120, 19/40] := by
  rw [step3_vec (1/3) (1/3) (1/3) (by norm_num) (by norm_num) (by norm_num) (by norm_num)]
  funext i
  fin_cases i <;>
    norm_num [Matrix.cons_val_zero, Matrix.cons_val_one, Matrix.head_cons,
      Matrix.cons_val_two, Matrix.tail_cons]

/-- Iteration 1 of the worked example: the next residual. -/
theorem c8q0 : (pageRankStep ts3 dangle3 (85/100) ![1/3, 1/3, 1/3]).2 = 17/60 := by
  rw [step3_res (1/3) (1/3) (1/3) (by norm_num) (by norm_num) (by norm_num) (by norm_num)]
  rw [abs_of_nonneg (show (0:ℚ) ≤ (1/3) - (1/20 + 17/20 * (1/3)) by norm_num),
    abs_of_nonneg (show (0:ℚ) ≤ (1/3) - (1/20 + 17/40 * (1/3)) by norm_num),
    abs_of_nonpos (show (1/3) - (1/20 + 17/40 * (1/3) + 17/20 * (1/3)) ≤ (0:ℚ) by norm_num)]
  norm_num

/-- Iteration 2 of the worked example: the next rank vector. -/
theorem c8v1 : (pageRankStep ts3 dangle3 (85/100) ![1/3, 23/120, 19/40]).1 = ![363/800, 23/120, 851/2400] := by
  rw [step3_vec (1/3) (23/120) (19/40) (by norm_num) (by norm_num) (by norm_num) (by norm_num)]
  funext i
  fin_cases i <;>
    norm_num [Matrix.cons_val_zero, Matrix.cons_val_one, Matrix.head_cons,
      Matrix.cons_val_two, Matrix.tail_cons]

/-- Iteration 2 of the worked example: the next residual. -/
theorem c8q1 : (pageRankStep ts3 dangle3 (85/100) ![1/3, 23/120, 19/40]).2 = 289/1200 := by
  rw [step3_res (1/3) (23/120) (19/40) (by norm_num) (by norm_num) (by norm_num) (by norm_num)]
  rw [abs_of_nonpos (show (1/3) - (1/20 + 17/20 * (19/40)) ≤ (0:ℚ) by norm_num),
    abs_of_nonneg (show (0:ℚ) ≤ (23/120) - (1/20 + 17/40 * (1/3)) by norm_num),
    abs_of_nonneg (show (0:ℚ) ≤ (19/40) - (1/20 + 17/40 * (1/3) + 17/20 * (23/120)) by norm_num)]
  norm_num

/-- Iteration 3 of the worked example: the next rank vector. -/
theorem c8v2 : (pageRankStep ts3 dangle3 (85/100) ![363/800, 23/120, 851/2400]).1 = ![16867/48000, 7771/32000, 38953/96000] := by
  rw [step3_vec (363/800) (23/120) (851/2400) (by norm_num) (by norm_num) (by norm_num) (by norm_num)]
  funext i
  fin_cases i <;>
    norm_num [Matrix.cons_val_zero, Matrix.cons_val_one, Matrix.head_cons,
      Matrix.cons_val_two, Matrix.tail_cons]

/-- Iteration 3 of the worked example: the next residual. -/
theorem c8q2 : (pageRankStep ts3 dangle3 (85/100) ![363/800, 23/120, 851/2400]).2 = 4913/24000 := by
  rw [step3_res (363/800) (23/120) (851/2400) (by norm_num) (by norm_num) (by norm_num) (by norm_num)]
  rw [abs_of_nonneg (show (0:ℚ) ≤ (363/800) - (1/20 + 17/20 * (851/2400)) by norm_num),
    abs_of_nonpos (show (23/120) - (1/20 + 17/40 * (363/800)) ≤ (0:ℚ) by norm_num),
    abs_of_nonpos (show (851/2400) - (1/20 + 17/40 * (363/800) + 17/20 * (23/120)) ≤ (0:ℚ) by norm_num)]
  norm_num

/-- Iteration 4 of the worked example: the next rank vector. -/
theorem c8v3 : (pageRankStep ts3 dangle3 (85/100) ![16867/48000, 7771/32000, 38953/96000]).1 = ![758201/1920000, 382739/1920000, 38953/96000] := by
  rw [step3_vec (16867/48000) (7771/32000) (38953/96000) (by norm_num) (by norm_num) (by norm_num) (by norm_num)]
  funext i
  fin_cases i <;>
    norm_num [Matrix.cons_val_zero, Matrix.cons_val_one, Matrix.head_cons,
      Matrix.cons_val_two, Matrix.tail_cons]

/-- Iteration 4 of the worked example: the next residual. -/
theorem c8q3 : (pageRankStep ts3 dangle3 (85/100) ![16867/48000, 7771/32000, 38953/96000]).2 = 83521/960000 := by
  rw [step3_res (16867/48000) (7771/32000) (38953/96000) (by norm_num) (by norm_num) (by norm_num) (by norm_num)]
  rw [abs_of_nonpos (show (16867/48000) - (1/20 + 17/20 * (38953/96000)) ≤ (0:ℚ) by norm_num),
    abs_of_nonneg (show (0:ℚ) ≤ (7771/32000) - (1/20 + 17/40 * (16867/48000)) by norm_num),
    abs_of_nonneg (show (0:ℚ) ≤ (38953/96000) - (1/20 + 17/40 * (16867/48000) + 17/20 * (7771/32000)) by norm_num)]
  norm_num

/-- Iteration 5 of the worked example: the next rank vector. -/
theorem c8v4 : (pageRankStep ts3 dangle3 (85/100) ![758201/1920000, 382739/1920000, 38953/96000]).1 = ![758201/1920000, 16729417/76800000, 9914181/25600000] := by
  rw [step3_vec (758201/1920000) (382739/1920000) (38953/96000) (by norm_num) (by norm_num) (by norm_num) (by norm_num)]
  funext i
  fin_cases i <;>
    norm_num [Matrix.cons_val_zero, Matrix.cons_val_one, Matrix.head_cons,
      Matrix.cons_val_two, Matrix.tail_cons]

/-- Iteration 5 of the worked example: the next residual. -/
theorem c8q4 : (pageRankStep ts3 dangle3 (85/100) ![758201/1920000, 382739/1920000, 38953/96000]).2 = 1419857/38400000 := by
  rw [step3_res (758201/1920000) (382739/1920000) (38953/96000) (by norm_num) (by norm_num) (by norm_num) (by norm_num)]
  rw [abs_of_nonneg (show (0:ℚ) ≤ (758201/1920000) - (1/20 + 17/20 * (38953/96000)) by norm_num),
    abs_of_nonpos (show (382739/1920000) - (1/20 + 17/40 * (758201/1920000)) ≤ (0:ℚ) by norm_num),
    abs_of_nonneg (show (0:ℚ) ≤ (38953/96000) - (1/20 + 17/40 * (758201/1920000) + 17/20 * (382739/1920000)) by norm_num)]
  norm_num

/-- Iteration 6 of the worked example: the next rank vector. -/
theorem c8v5 : (pageRankStep ts3 dangle3 (85/100) ![758201/1920000, 16729417/76800000, 9914181/25600000]).1 = ![194141077/512000000, 16729417/76800000, 618988429/1536000000] := by
  rw [step3_vec (758201/1920000) (16729417/76800000) (9914181/25600000) (by norm_num) (by norm_num) (by norm_num) (by norm_num)]
  funext i
  fin_cases i <;>
    norm_num [Matrix.cons_val_zero, Matrix.cons_val_one, Matrix.head_cons,
      Matrix.cons_val_two, Matrix.tail_cons]

/-- Iteration 6 of the worked example: the next residual. -/
theorem c8q5 : (pageRankStep ts3 dangle3 (85/100) ![758201/1920000, 16729417/76800000, 9914181/25600000]).2 = 24137569/768000000 := by
  rw [step3_res (758201/1920000) (16729417/76800000) (9914181/25600000) (by norm_num) (by norm_num) (by norm_num) (by norm_num)]
  rw [abs_of_nonneg (show (0:ℚ) ≤ (758201/1920000) - (1/20 + 17/20 * (9914181/25600000)) by norm_num),
    abs_of_nonneg (show (0:ℚ) ≤ (16729417/76800000) - (1/20 + 17/40 * (758201/1920000)) by norm_num),
    abs_of_nonpos (show (9914181/25600000) - (1/20 + 17/40 * (758201/1920000) + 17/20 * (16729417/76800000)) ≤ (0:ℚ) by norm_num)]
  norm_num

/-- Iteration 7 of the worked example: the next rank vector. -/
theorem c8v6 : (pageRankStep ts3 dangle3 (85/100) ![194141077/512000000, 16729417/76800000, 618988429/1536000000]).1 = ![12058803293/30720000000, 4324398309/20480000000, 24349198487/61440000000] := by
  rw [step3_vec (194141077/512000000) (16729417/76800000) (618988429/1536000000) (by norm_num) (by norm_num) (by norm_num) (by norm_num)]
  funext i
  fin_cases i <;>
    norm_num [Matrix.cons_val_zero, Matrix.cons_val_one, Matrix.head_cons,
      Matrix.cons_val_two, Matrix.tail_cons]

/-- Iteration 7 of the worked example: the next residual. -/
theorem c8q6 : (pageRankStep ts3 dangle3 (85/100) ![194141077/512000000, 16729417/76800000, 618988429/1536000000]).2 = 410338673/15360000000 := by
  rw [step3_res (194141077/512000000) (16729417/76800000) (618988429/1536000000) (by norm_num) (by norm_num) (by norm_num) (by norm_num)]
  rw [abs_of_nonpos (show (194141077/512000000) - (1/20 + 17/20 * (618988429/1536000000)) ≤ (0:ℚ) by norm_num),
    abs_of_nonneg (show (0:ℚ) ≤ (16729417/76800000) - (1/20 + 17/40 * (194141077/512000000)) by norm_num),
    abs_of_nonneg (show (0:ℚ) ≤ (618988429/1536000000) - (1/20 + 17/40 * (194141077/512000000) + 17/20 * (16729417/76800000)) by norm_num)]
  norm_num

/-- Iteration 8 of the worked example: the next rank vector. -/
theorem c8v7 : (pageRankStep ts3 dangle3 (85/100) ![12058803293/30720000000, 4324398309/20480000000, 24349198487/61440000000]).1 = ![475376374279/1228800000000, 266439655981/1228800000000, 24349198487/61440000000] := by
  rw [step3_vec (12058803293/30720000000) (4324398309/20480000000) (24349198487/61440000000) (by norm_num) (by norm_num) (by norm_num) (by norm_num)]
  funext i
  fin_cases i <;>
    norm_num [Matrix.cons_val_zero, Matrix.cons_val_one, Matrix.head_cons,
      Matrix.cons_val_two, Matrix.tail_cons]

/-- Iteration 8 of the worked example: the next residual. -/
theorem c8q7 : (pageRankStep ts3 dangle3 (85/100) ![12058803293/30720000000, 4324398309/20480000000, 24349198487/61440000000]).2 = 6975757441/614400000000 := by
  rw [step3_res (12058803293/30720000000) (4324398309/20480000000) (24349198487/61440000000) (by norm_num) (by norm_num) (by norm_num) (by norm_num)]
  rw [abs_of_nonneg (show (0:ℚ) ≤ (12058803293/30720000000) - (1/20 + 17/20 * (24349198487/61440000000)) by norm_num),
    abs_of_nonpos (show (4324398309/20480000000) - (1/20 + 17/40 * (12058803293/30720000000)) ≤ (0:ℚ) by norm_num),
    abs_of_nonneg (show (0:ℚ) ≤ (24349198487/61440000000) - (1/20 + 17/40 * (12058803293/30720000000) + 17/20 * (4324398309/20480000000)) by norm_num)]
  norm_num

/-- Iteration 9 of the worked example: the next rank vector. -/
theorem c8v8 : (pageRankStep ts3 dangle3 (85/100) ![475376374279/1228800000000, 266439655981/1228800000000, 24349198487/61440000000]).1 = ![475376374279/1228800000000, 10538998362743/49152000000000, 6532648888699/16384000000000] := by
  rw [step3_vec (475376374279/1228800000000) (266439655981/1228800000000) (24349198487/61440000000) (by norm_num) (by norm_num) (by norm_num) (by norm_num)]
  funext i
  fin_cases i <;>
    norm_num [Matrix.cons_val_zero, Matrix.cons_val_one, Matrix.head_cons,
      Matrix.cons_val_two, Matrix.tail_cons]

/-- Iteration 9 of the worked example: the next residual. -/
theorem c8q8 : (pageRankStep ts3 dangle3 (85/100) ![475376374279/1228800000000, 266439655981/1228800000000, 24349198487/61440000000]).2 = 118587876497/24576000000000 := by
  rw [step3_res (475376374279/1228800000000) (266439655981/1228800000000) (24349198487/61440000000) (by norm_num) (by norm_num) (by norm_num) (by norm_num)]
  rw [abs_of_nonneg (show (0:ℚ) ≤ (475376374279/1228800000000) - (1/20 + 17/20 * (24349198487/61440000000)) by norm_num),
    abs_of_nonneg (show (0:ℚ) ≤ (266439655981/1228800000000) - (1/20 + 17/40 * (475376374279/1228800000000)) by norm_num),
    abs_of_nonpos (show (24349198487/61440000000) - (1/20 + 17/40 * (475376374279/1228800000000) + 17/20 * (266439655981/1228800000000)) ≤ (0:ℚ) by norm_num)]
  norm_num

/-- Iteration 10 of the worked example: the next rank vector. -/
theorem c8v9 : (pageRankStep ts3 dangle3 (85/100) ![475376374279/1228800000000, 10538998362743/49152000000000, 6532648888699/16384000000000]).1 = ![127439031107883/327680000000000, 10538998362743/49152000000000, 389942939421491/983040000000000] := by
  rw [step3_vec (475376374279/1228800000000) (10538998362743/49152000000000) (6532648888699/16384000000000) (by norm_num) (by norm_num) (by norm_num) (by norm_num)]
  funext i
  fin_cases i <;>
    norm_num [Matrix.cons_val_zero, Matrix.cons_val_one, Matrix.head_cons,
      Matrix.cons_val_two, Matrix.tail_cons]

/-- Iteration 10 of the worked example: the next residual. -/
theorem c8q9 : (pageRankStep ts3 dangle3 (85/100) ![475376374279/1228800000000, 10538998362743/49152000000000, 6532648888699/16384000000000]).2 = 2015993900449/491520000000000 := by
  rw [step3_res (475376374279/1228800000000) (10538998362743/49152000000000) (6532648888699/16384000000000) (by norm_num) (by norm_num) (by norm_num) (by norm_num)]
  rw [abs_of_nonpos (show (475376374279/1228800000000) - (1/20 + 17/20 * (6532648888699/16384000000000)) ≤ (0:ℚ) by norm_num),
    abs_of_nonneg (show (0:ℚ) ≤ (10538998362743/49152000000000) - (1/20 + 17/40 * (475376374279/1228800000000)) by norm_num),
    abs_of_nonneg (show (0:ℚ) ≤ (6532648888699/16384000000000) - (1/20 + 17/40 * (475376374279/1228800000000) + 17/20 * (10538998362743/49152000000000)) by norm_num)]
  norm_num

/-- Iteration 11 of the worked example: the next rank vector. -/
theorem c8v10 : (pageRankStep ts3 dangle3 (85/100) ![127439031107883/327680000000000, 10538998362743/49152000000000, 389942939421491/983040000000000]).1 = ![7612069970165347/19660800000000000, 2821823528834011/13107200000000000, 15631989473167273/39321600000000000] := by
  rw [step3_vec (127439031107883/327680000000000) (10538998362743/49152000000000) (389942939421491/983040000000000) (by norm_num) (by norm_num) (by norm_num) (by norm_num)]
  funext i
  fin_cases i <;>
    norm_num [Matrix.cons_val_zero, Matrix.cons_val_one, Matrix.head_cons,
      Matrix.cons_val_two, Matrix.tail_cons]

/-- Iteration 11 of the worked example: the next residual. -/
theorem c8q10 : (pageRankStep ts3 dangle3 (85/100) ![127439031107883/327680000000000, 10538998362743/49152000000000, 389942939421491/983040000000000]).2 = 34271896307633/9830400000000000 := by
  rw [step3_res (127439031107883/327680000000000) (10538998362743/49152000000000) (389942939421491/983040000000000) (by norm_num) (by norm_num) (by norm_num) (by norm_num)]
  rw [abs_of_nonneg (show (0:ℚ) ≤ (127439031107883/327680000000000) - (1/20 + 17/20 * (389942939421491/983040000000000)) by norm_num),
    abs_of_nonpos (show (10538998362743/49152000000000) - (1/20 + 17/40 * (127439031107883/327680000000000)) ≤ (0:ℚ) by norm_num),
    abs_of_nonpos (show (389942939421491/983040000000000) - (1/20 + 17/40 * (127439031107883/327680000000000) + 17/20 * (10538998362743/49152000000000)) ≤ (0:ℚ) by norm_num)]
  norm_num

/-- Iteration 12 of the worked example: the next rank vector. -/
theorem c8v11 : (pageRankStep ts3 dangle3 (85/100) ![7612069970165347/19660800000000000, 2821823528834011/13107200000000000, 15631989473167273/39321600000000000]).1 = ![305065421043843641/786432000000000000, 168726789492810899/786432000000000000, 15631989473167273/39321600000000000] := by
  rw [step3_vec (7612069970165347/19660800000000000) (2821823528834011/13107200000000000) (15631989473167273/39321600000000000) (by norm_num) (by norm_num) (by norm_num) (by norm_num)]
  funext i
  fin_cases i <;>
    norm_num [Matrix.cons_val_zero, Matrix.cons_val_one, Matrix.head_cons,
      Matrix.cons_val_two, Matrix.tail_cons]

/-- Iteration 12 of the worked example: the next residual. -/
theorem c8q11 : (pageRankStep ts3 dangle3 (85/100) ![7612069970165347/19660800000000000, 2821823528834011/13107200000000000, 15631989473167273/39321600000000000]).2 = 582622237229761/393216000000000000 := by
  rw [step3_res (7612069970165347/19660800000000000) (2821823528834011/13107200000000000) (15631989473167273/39321600000000000) (by norm_num) (by norm_num) (by norm_num) (by norm_num)]
  rw [abs_of_nonpos (show (7612069970165347/19660800000000000) - (1/20 + 17/20 * (15631989473167273/39321600000000000)) ≤ (0:ℚ) by norm_num),
    abs_of_nonneg (show (0:ℚ) ≤ (2821823528834011/13107200000000000) - (1/20 + 17/40 * (7612069970165347/19660800000000000)) by norm_num),
    abs_of_nonneg (show (0:ℚ) ≤ (15631989473167273/39321600000000000) - (1/20 + 17/40 * (7612069970165347/19660800000000000) + 17/20 * (2821823528834011/13107200000000000)) by norm_num)]
  norm_num

/-- Iteration 13 of the worked example: the next rank vector. -/
theorem c8v12 : (pageRankStep ts3 dangle3 (85/100) ![305065421043843641/786432000000000000, 168726789492810899/786432000000000000, 15631989473167273/39321600000000000]).1 = ![305065421043843641/786432000000000000, 6758976157745341897/31457280000000000000, 4165229000166970821/10485760000000000000] := by
  rw [step3_vec (305065421043843641/786432000000000000) (168726789492810899/786432000000000000) (15631989473167273/39321600000000000) (by norm_num) (by norm_num) (by norm_num) (by norm_num)]
  funext i
  fin_cases i <;>
    norm_num [Matrix.cons_val_zero, Matrix.cons_val_one, Matrix.head_cons,
      Matrix.cons_val_two, Matrix.tail_cons]

/-- Iteration 13 of the worked example: the next residual. -/
theorem c8q12 : (pageRankStep ts3 dangle3 (85/100) ![305065421043843641/786432000000000000, 168726789492810899/786432000000000000, 15631989473167273/39321600000000000]).2 = 9904578032905937/15728640000000000000 := by
  rw [step3_res (305065421043843641/786432000000000000) (168726789492810899/786432000000000000) (15631989473167273/39321600000000000) (by norm_num) (by norm_num) (by norm_num) (by norm_num)]
  rw [abs_of_nonneg (show (0:ℚ) ≤ (305065421043843641/786432000000000000) - (1/20 + 17/20 * (15631989473167273/39321600000000000)) by norm_num),
    abs_of_nonpos (show (168726789492810899/786432000000000000) - (1/20 + 17/40 * (305065421043843641/786432000000000000)) ≤ (0:ℚ) by norm_num),
    abs_of_nonneg (show (0:ℚ) ≤ (15631989473167273/39321600000000000) - (1/20 + 17/40 * (305065421043843641/786432000000000000) + 17/20 * (168726789492810899/786432000000000000)) by norm_num)]
  norm_num

/-- Iteration 14 of the worked example: the next rank vector. -/
theorem c8v13 : (pageRankStep ts3 dangle3 (85/100) ![305065421043843641/786432000000000000, 6758976157745341897/31457280000000000000, 4165229000166970821/10485760000000000000]).1 = ![81294653002838503957/209715200000000000000, 6758976157745341897/31457280000000000000, 250082117836577650189/629145600000000000000] := by
  rw [step3_vec (305065421043843641/786432000000000000) (6758976157745341897/31457280000000000000) (4165229000166970821/10485760000000000000) (by norm_num) (by norm_num) (by norm_num) (by norm_num)]
  funext i
  fin_cases i <;>
    norm_num [Matrix.cons_val_zero, Matrix.cons_val_one, Matrix.head_cons,
      Matrix.cons_val_two, Matrix.tail_cons]

/-- Iteration 14 of the worked example: the next residual. -/
theorem c8q13 : (pageRankStep ts3 dangle3 (85/100) ![305065421043843641/786432000000000000, 6758976157745341897/31457280000000000000, 4165229000166970821/10485760000000000000]).2 = 168377826559400929/314572800000000000000 := by
  rw [step3_res (305065421043843641/786432000000000000) (6758976157745341897/31457280000000000000) (4165229000166970821/10485760000000000000) (by norm_num) (by norm_num) (by norm_num) (by norm_num)]
  rw [abs_of_nonneg (show (0:ℚ) ≤ (305065421043843641/786432000000000000) - (1/20 + 17/20 * (4165229000166970821/10485760000000000000)) by norm_num),
    abs_of_nonneg (show (0:ℚ) ≤ (6758976157745341897/31457280000000000000) - (1/20 + 17/40 * (305065421043843641/786432000000000000)) by norm_num),
    abs_of_nonpos (show (4165229000166970821/10485760000000000000) - (1/20 + 17/40 * (305065421043843641/786432000000000000) + 17/20 * (6758976157745341897/31457280000000000000)) ≤ (0:ℚ) by norm_num)]
  norm_num

/-- Iteration 15 of the worked example: the next rank vector. -/
theorem c8v14 : (pageRankStep ts3 dangle3 (85/100) ![81294653002838503957/209715200000000000000, 6758976157745341897/31457280000000000000, 250082117836577650189/629145600000000000000]).1 = ![4880541603221820053213/12582912000000000000000, 1801439501048254567269/8388608000000000000000, 10000422290411596191767/25165824000000000000000] := by
  rw [step3_vec (81294653002838503957/209715200000000000000) (6758976157745341897/31457280000000000000) (250082117836577650189/629145600000000000000) (by norm_num) (by norm_num) (by norm_num) (by norm_num)]
  funext i
  fin_cases i <;>
    norm_num [Matrix.cons_val_zero, Matrix.cons_val_one, Matrix.head_cons,
      Matrix.cons_val_two, Matrix.tail_cons]

/-- Iteration 15 of the worked example: the next residual. -/
theorem c8q14 : (pageRankStep ts3 dangle3 (85/100) ![81294653002838503957/209715200000000000000, 6758976157745341897/31457280000000000000, 250082117836577650189/629145600000000000000]).2 = 2862423051509815793/6291456000000000000000 := by
  rw [step3_res (81294653002838503957/209715200000000000000) (6758976157745341897/31457280000000000000) (250082117836577650189/629145600000000000000) (by norm_num) (by norm_num) (by norm_num) (by norm_num)]
  rw [abs_of_nonpos (show (81294653002838503957/209715200000000000000) - (1/20 + 17/20 * (250082117836577650189/629145600000000000000)) ≤ (0:ℚ) by norm_num),
    abs_of_nonneg (show (0:ℚ) ≤ (6758976157745341897/31457280000000000000) - (1/20 + 17/40 * (81294653002838503957/209715200000000000000)) by norm_num),
    abs_of_nonneg (show (0:ℚ) ≤ (250082117836577650189/629145600000000000000) - (1/20 + 17/40 * (81294653002838503957/209715200000000000000) + 17/20 * (6758976157745341897/31457280000000000000)) by norm_num)]
  norm_num

/-- Iteration 16 of the worked example: the next rank vector. -/
theorem c8v15 : (pageRankStep ts3 dangle3 (85/100) ![4880541603221820053213/12582912000000000000000, 1801439501048254567269/8388608000000000000000, 10000422290411596191767/25165824000000000000000]).1 = ![195173002936997135260039/503316480000000000000000, 108135031254770940904621/503316480000000000000000, 10000422290411596191767/25165824000000000000000] := by
  rw [step3_vec (4880541603221820053213/12582912000000000000000) (1801439501048254567269/8388608000000000000000) (10000422290411596191767/25165824000000000000000) (by norm_num) (by norm_num) (by norm_num) (by norm_num)]
  funext i
  fin_cases i <;>
    norm_num [Matrix.cons_val_zero, Matrix.cons_val_one, Matrix.head_cons,
      Matrix.cons_val_two, Matrix.tail_cons]

/-- Iteration 16 of the worked example: the next residual. -/
theorem c8q15 : (pageRankStep ts3 dangle3 (85/100) ![4880541603221820053213/12582912000000000000000, 1801439501048254567269/8388608000000000000000, 10000422290411596191767/25165824000000000000000]).2 = 48661191875666868481/251658240000000000000000 := by
  rw [step3_res (4880541603221820053213/12582912000000000000000) (1801439501048254567269/8388608000000000000000) (10000422290411596191767/25165824000000000000000) (by norm_num) (by norm_num) (by norm_num) (by norm_num)]
  rw [abs_of_nonneg (show (0:ℚ) ≤ (4880541603221820053213/12582912000000000000000) - (1/20 + 17/20 * (10000422290411596191767/25165824000000000000000)) by norm_num),
    abs_of_nonpos (show (1801439501048254567269/8388608000000000000000) - (1/20 + 17/40 * (4880541603221820053213/12582912000000000000000)) ≤ (0:ℚ) by norm_num),
    abs_of_nonneg (show (0:ℚ) ≤ (10000422290411596191767/25165824000000000000000) - (1/20 + 17/40 * (4880541603221820053213/12582912000000000000000) + 17/20 * (1801439501048254567269/8388608000000000000000)) by norm_num)]
  norm_num

/-- Iteration 17 of the worked example: the next rank vector. -/
theorem c8v16 : (pageRankStep ts3 dangle3 (85/100) ![195173002936997135260039/503316480000000000000000, 108135031254770940904621/503316480000000000000000, 10000422290411596191767/25165824000000000000000]).1 = ![195173002936997135260039/503316480000000000000000, 4324574009928951299420663/20132659200000000000000000, 2667055024197054430059259/6710886400000000000000000] := by
  rw [step3_vec (195173002936997135260039/503316480000000000000000) (108135031254770940904621/503316480000000000000000) (10000422290411596191767/25165824000000000000000) (by norm_num) (by norm_num) (by norm_num) (by norm_num)]
  funext i
  fin_cases i <;>
    norm_num [Matrix.cons_val_zero, Matrix.cons_val_one, Matrix.head_cons,
      Matrix.cons_val_two, Matrix.tail_cons]

/-- Iteration 17 of the worked example: the next residual. -/
theorem c8q16 : (pageRankStep ts3 dangle3 (85/100) ![195173002936997135260039/503316480000000000000000, 108135031254770940904621/503316480000000000000000, 10000422290411596191767/25165824000000000000000]).2 = 827240261886336764177/10066329600000000000000000 := by
  rw [step3_res (195173002936997135260039/503316480000000000000000) (108135031254770940904621/503316480000000000000000) (10000422290411596191767/25165824000000000000000) (by norm_num) (by norm_num) (by norm_num) (by norm_num)]
  rw [abs_of_nonneg (show (0:ℚ) ≤ (195173002936997135260039/503316480000000000000000) - (1/20 + 17/20 * (10000422290411596191767/25165824000000000000000)) by norm_num),
    abs_of_nonneg (show (0:ℚ) ≤ (108135031254770940904621/503316480000000000000000) - (1/20 + 17/40 * (195173002936997135260039/503316480000000000000000)) by norm_num),
    abs_of_nonpos (show (10000422290411596191767/25165824000000000000000) - (1/20 + 17/40 * (195173002936997135260039/503316480000000000000000) + 17/20 * (108135031254770940904621/503316480000000000000000)) ≤ (0:ℚ) by norm_num)]
  norm_num

/-- Iteration 18 of the worked example: the next rank vector. -/
theorem c8v17 : (pageRankStep ts3 dangle3 (85/100) ![195173002936997135260039/503316480000000000000000, 4324574009928951299420663/20132659200000000000000000, 2667055024197054430059259/6710886400000000000000000]).1 = ![52050821811349925311007403/134217728000000000000000000, 4324574009928951299420663/20132659200000000000000000, 160009238367371198078564531/402653184000000000000000000] := by
  rw [step3_vec (195173002936997135260039/503316480000000000000000) (4324574009928951299420663/20132659200000000000000000) (2667055024197054430059259/6710886400000000000000000) (by norm_num) (by norm_num) (by norm_num) (by norm_num)]
  funext i
  fin_cases i <;>
    norm_num [Matrix.cons_val_zero, Matrix.cons_val_one, Matrix.head_cons,
      Matrix.cons_val_two, Matrix.tail_cons]

/-- Iteration 18 of the worked example: the next residual. -/
theorem c8q17 : (pageRankStep ts3 dangle3 (85/100) ![195173002936997135260039/503316480000000000000000, 4324574009928951299420663/20132659200000000000000000, 2667055024197054430059259/6710886400000000000000000]).2 = 14063084452067724991009/201326592000000000000000000 := by
  rw [step3_res (195173002936997135260039/503316480000000000000000) (4324574009928951299420663/20132659200000000000000000) (2667055024197054430059259/6710886400000000000000000) (by norm_num) (by norm_num) (by norm_num) (by norm_num)]
  rw [abs_of_nonpos (show (195173002936997135260039/503316480000000000000000) - (1/20 + 17/20 * (2667055024197054430059259/6710886400000000000000000)) ≤ (0:ℚ) by norm_num),
    abs_of_nonneg (show (0:ℚ) ≤ (4324574009928951299420663/20132659200000000000000000) - (1/20 + 17/40 * (195173002936997135260039/503316480000000000000000)) by norm_num),
    abs_of_nonneg (show (0:ℚ) ≤ (2667055024197054430059259/6710886400000000000000000) - (1/20 + 17/40 * (195173002936997135260039/503316480000000000000000) + 17/20 * (4324574009928951299420663/20132659200000000000000000)) by norm_num)]
  norm_num

/-- Iteration 19 of the worked example: the next rank vector. -/
theorem c8v18 : (pageRankStep ts3 dangle3 (85/100) ![52050821811349925311007403/134217728000000000000000000, 4324574009928951299420663/20132659200000000000000000, 160009238367371198078564531/402653184000000000000000000]).1 = ![3122810236245310367335597027/8053063680000000000000000000, 1153299426792948730287125851/5368709120000000000000000000, 6400608607130533074467428393/16106127360000000000000000000] := by
  rw [step3_vec (52050821811349925311007403/134217728000000000000000000) (4324574009928951299420663/20132659200000000000000000) (160009238367371198078564531/402653184000000000000000000) (by norm_num) (by norm_num) (by norm_num) (by norm_num)]
  funext i
  fin_cases i <;>
    norm_num [Matrix.cons_val_zero, Matrix.cons_val_one, Matrix.head_cons,
      Matrix.cons_val_two, Matrix.tail_cons]

/-- Iteration 19 of the worked example: the next residual. -/
theorem c8q18 : (pageRankStep ts3 dangle3 (85/100) ![52050821811349925311007403/134217728000000000000000000, 4324574009928951299420663/20132659200000000000000000, 160009238367371198078564531/402653184000000000000000000]).2 = 239072435685151324847153/4026531840000000000000000000 := by
  rw [step3_res (52050821811349925311007403/134217728000000000000000000) (4324574009928951299420663/20132659200000000000000000) (160009238367371198078564531/402653184000000000000000000) (by norm_num) (by norm_num) (by norm_num) (by norm_num)]
  rw [abs_of_nonneg (show (0:ℚ) ≤ (52050821811349925311007403/134217728000000000000000000) - (1/20 + 17/20 * (160009238367371198078564531/402653184000000000000000000)) by norm_num),
    abs_of_nonpos (show (4324574009928951299420663/20132659200000000000000000) - (1/20 + 17/40 * (52050821811349925311007403/134217728000000000000000000)) ≤ (0:ℚ) by norm_num),
    abs_of_nonpos (show (160009238367371198078564531/402653184000000000000000000) - (1/20 + 17/40 * (52050821811349925311007403/134217728000000000000000000) + 17/20 * (4324574009928951299420663/20132659200000000000000000)) ≤ (0:ℚ) by norm_num)]
  norm_num

/-- Iteration 20 of the worked example: the next rank vector. -/
theorem c8v19 : (pageRankStep ts3 dangle3 (85/100) ![3122810236245310367335597027/8053063680000000000000000000, 1153299426792948730287125851/5368709120000000000000000000, 6400608607130533074467428393/16106127360000000000000000000]).1 = ![124916473681219062265946282681/322122547200000000000000000000, 69193901376170276244705149459/322122547200000000000000000000, 6400608607130533074467428393/16106127360000000000000000000] := by
  rw [step3_vec (3122810236245310367335597027/8053063680000000000000000000) (1153299426792948730287125851/5368709120000000000000000000) (6400608607130533074467428393/16106127360000000000000000000) (by norm_num) (by norm_num) (by norm_num) (by norm_num)]
  funext i
  fin_cases i <;>
    norm_num [Matrix.cons_val_zero, Matrix.cons_val_one, Matrix.head_cons,
      Matrix.cons_val_two, Matrix.tail_cons]

/-- Iteration 20 of the worked example: the next residual. -/
theorem c8q19 : (pageRankStep ts3 dangle3 (85/100) ![3122810236245310367335597027/8053063680000000000000000000, 1153299426792948730287125851/5368709120000000000000000000, 6400608607130533074467428393/16106127360000000000000000000]).2 = 4064231406647572522401601/161061273600000000000000000000 := by
  rw [step3_res (3122810236245310367335597027/8053063680000000000000000000) (1153299426792948730287125851/5368709120000000000000000000) (6400608607130533074467428393/16106127360000000000000000000) (by norm_num) (by norm_num) (by norm_num) (by norm_num)]
  rw [abs_of_nonpos (show (3122810236245310367335597027/8053063680000000000000000000) - (1/20 + 17/20 * (6400608607130533074467428393/16106127360000000000000000000)) ≤ (0:ℚ) by norm_num),
    abs_of_nonneg (show (0:ℚ) ≤ (1153299426792948730287125851/5368709120000000000000000000) - (1/20 + 17/40 * (3122810236245310367335597027/8053063680000000000000000000)) by norm_num),
    abs_of_nonneg (show (0:ℚ) ≤ (6400608607130533074467428393/16106127360000000000000000000) - (1/20 + 17/40 * (3122810236245310367335597027/8053063680000000000000000000) + 17/20 * (1153299426792948730287125851/5368709120000000000000000000)) by norm_num)]
  norm_num

/-- Iteration 21 of the worked example: the next rank vector. -/
theorem c8v20 : (pageRankStep ts3 dangle3 (85/100) ![124916473681219062265946282681/322122547200000000000000000000, 69193901376170276244705149459/322122547200000000000000000000, 6400608607130533074467428393/16106127360000000000000000000]).1 = ![124916473681219062265946282681/322122547200000000000000000000, 2767825146980724058521086805577/12884901888000000000000000000000, 1706805931256837816947020629061/4294967296000000000000000000000] := by
  rw [step3_vec (124916473681219062265946282681/322122547200000000000000000000) (69193901376170276244705149459/322122547200000000000000000000) (6400608607130533074467428393/16106127360000000000000000000) (by norm_num) (by norm_num) (by norm_num) (by norm_num)]
  funext i
  fin_cases i <;>
    norm_num [Matrix.cons_val_zero, Matrix.cons_val_one, Matrix.head_cons,
      Matrix.cons_val_two, Matrix.tail_cons]

/-- Iteration 21 of the worked example: the next residual. -/
theorem c8q20 : (pageRankStep ts3 dangle3 (85/100) ![124916473681219062265946282681/322122547200000000000000000000, 69193901376170276244705149459/322122547200000000000000000000, 6400608607130533074467428393/16106127360000000000000000000]).2 = 69091933913008732880827217/6442450944000000000000000000000 := by
  rw [step3_res (124916473681219062265946282681/322122547200000000000000000000) (69193901376170276244705149459/322122547200000000000000000000) (6400608607130533074467428393/16106127360000000000000000000) (by norm_num) (by norm_num) (by norm_num) (by norm_num)]
  rw [abs_of_nonneg (show (0:ℚ) ≤ (124916473681219062265946282681/322122547200000000000000000000) - (1/20 + 17/20 * (6400608607130533074467428393/16106127360000000000000000000)) by norm_num),
    abs_of_nonpos (show (69193901376170276244705149459/322122547200000000000000000000) - (1/20 + 17/40 * (124916473681219062265946282681/322122547200000000000000000000)) ≤ (0:ℚ) by norm_num),
    abs_of_nonneg (show (0:ℚ) ≤ (6400608607130533074467428393/16106127360000000000000000000) - (1/20 + 17/40 * (124916473681219062265946282681/322122547200000000000000000000) + 17/20 * (69193901376170276244705149459/322122547200000000000000000000)) by norm_num)]
  norm_num

/-- Iteration 22 of the worked example: the next rank vector. -/
theorem c8v21 : (pageRankStep ts3 dangle3 (85/100) ![124916473681219062265946282681/322122547200000000000000000000, 2767825146980724058521086805577/12884901888000000000000000000000, 1706805931256837816947020629061/4294967296000000000000000000000]).1 = ![33310668127366242888099350694037/85899345920000000000000000000000, 2767825146980724058521086805577/12884901888000000000000000000000, 102409530438286790165280211806349/257698037760000000000000000000000] := by
  rw [step3_vec (124916473681219062265946282681/322122547200000000000000000000) (2767825146980724058521086805577/12884901888000000000000000000000) (1706805931256837816947020629061/4294967296000000000000000000000) (by norm_num) (by norm_num) (by norm_num) (by norm_num)]
  funext i
  fin_cases i <;>
    norm_num [Matrix.cons_val_zero, Matrix.cons_val_one, Matrix.head_cons,
      Matrix.cons_val_two, Matrix.tail_cons]

/-- Iteration 22 of the worked example: the next residual. -/
theorem c8q21 : (pageRankStep ts3 dangle3 (85/100) ![124916473681219062265946282681/322122547200000000000000000000, 2767825146980724058521086805577/12884901888000000000000000000000, 1706805931256837816947020629061/4294967296000000000000000000000]).2 = 1174562876521148458974062689/128849018880000000000000000000000 := by
  rw [step3_res (124916473681219062265946282681/322122547200000000000000000000) (2767825146980724058521086805577/12884901888000000000000000000000) (1706805931256837816947020629061/4294967296000000000000000000000) (by norm_num) (by norm_num) (by norm_num) (by norm_num)]
  rw [abs_of_nonneg (show (0:ℚ) ≤ (124916473681219062265946282681/322122547200000000000000000000) - (1/20 + 17/20 * (1706805931256837816947020629061/4294967296000000000000000000000)) by norm_num),
    abs_of_nonneg (show (0:ℚ) ≤ (2767825146980724058521086805577/12884901888000000000000000000000) - (1/20 + 17/40 * (124916473681219062265946282681/322122547200000000000000000000)) by norm_num),
    abs_of_nonpos (show (1706805931256837816947020629061/4294967296000000000000000000000) - (1/20 + 17/40 * (124916473681219062265946282681/322122547200000000000000000000) + 17/20 * (2767825146980724058521086805577/12884901888000000000000000000000)) ≤ (0:ℚ) by norm_num)]
  norm_num

/-- Iteration 23 of the worked example: the next rank vector. -/
theorem c8v22 : (pageRankStep ts3 dangle3 (85/100) ![33310668127366242888099350694037/85899345920000000000000000000000, 2767825146980724058521086805577/12884901888000000000000000000000, 102409530438286790165280211806349/257698037760000000000000000000000]).1 = ![1998660055210875432809763600707933/5153960755200000000000000000000000, 738080050005226129097688961798629/3435973836800000000000000000000000, 4096361249962570747087405913188247/10307921510400000000000000000000000] := by
  rw [step3_vec (33310668127366242888099350694037/85899345920000000000000000000000) (2767825146980724058521086805577/12884901888000000000000000000000) (102409530438286790165280211806349/257698037760000000000000000000000) (by norm_num) (by norm_num) (by norm_num) (by norm_num)]
  funext i
  fin_cases i <;>
    norm_num [Matrix.cons_val_zero, Matrix.cons_val_one, Matrix.head_cons,
      Matrix.cons_val_two, Matrix.tail_cons]

/-- Iteration 23 of the worked example: the next residual. -/
theorem c8q22 : (pageRankStep ts3 dangle3 (85/100) ![33310668127366242888099350694037/85899345920000000000000000000000, 2767825146980724058521086805577/12884901888000000000000000000000, 102409530438286790165280211806349/257698037760000000000000000000000]).2 = 19967568900859523802559065713/2576980377600000000000000000000000 := by
  rw [step3_res (33310668127366242888099350694037/85899345920000000000000000000000) (2767825146980724058521086805577/12884901888000000000000000000000) (102409530438286790165280211806349/257698037760000000000000000000000) (by norm_num) (by norm_num) (by norm_num) (by norm_num)]
  rw [abs_of_nonpos (show (33310668127366242888099350694037/85899345920000000000000000000000) - (1/20 + 17/20 * (102409530438286790165280211806349/257698037760000000000000000000000)) ≤ (0:ℚ) by norm_num),
    abs_of_nonneg (show (0:ℚ) ≤ (2767825146980724058521086805577/12884901888000000000000000000000) - (1/20 + 17/40 * (33310668127366242888099350694037/85899345920000000000000000000000)) by norm_num),
    abs_of_nonneg (show (0:ℚ) ≤ (102409530438286790165280211806349/257698037760000000000000000000000) - (1/20 + 17/40 * (33310668127366242888099350694037/85899345920000000000000000000000) + 17/20 * (2767825146980724058521086805577/12884901888000000000000000000000)) by norm_num)]
  norm_num

/-- Iteration 24 of the worked example: the next rank vector. -/
theorem c8v23 : (pageRankStep ts3 dangle3 (85/100) ![1998660055210875432809763600707933/5153960755200000000000000000000000, 738080050005226129097688961798629/3435973836800000000000000000000000, 4096361249962570747087405913188247/10307921510400000000000000000000000]).1 = ![79946062759763702700485900524200199/206158430208000000000000000000000000, 44285142448984882357765981212034861/206158430208000000000000000000000000, 4096361249962570747087405913188247/10307921510400000000000000000000000] := by
  rw [step3_vec (1998660055210875432809763600707933/5153960755200000000000000000000000) (738080050005226129097688961798629/3435973836800000000000000000000000) (4096361249962570747087405913188247/10307921510400000000000000000000000) (by norm_num) (by norm_num) (by norm_num) (by norm_num)]
  funext i
  fin_cases i <;>
    norm_num [Matrix.cons_val_zero, Matrix.cons_val_one, Matrix.head_cons,
      Matrix.cons_val_two, Matrix.tail_cons]

/-- Iteration 24 of the worked example: the next residual. -/
theorem c8q23 : (pageRankStep ts3 dangle3 (85/100) ![1998660055210875432809763600707933/5153960755200000000000000000000000, 738080050005226129097688961798629/3435973836800000000000000000000000, 4096361249962570747087405913188247/10307921510400000000000000000000000]).2 = 339448671314611904643504117121/103079215104000000000000000000000000 := by
  rw [step3_res (1998660055210875432809763600707933/5153960755200000000000000000000000) (738080050005226129097688961798629/3435973836800000000000000000000000) (4096361249962570747087405913188247/10307921510400000000000000000000000) (by norm_num) (by norm_num) (by norm_num) (by norm_num)]
  rw [abs_of_nonneg (show (0:ℚ) ≤ (1998660055210875432809763600707933/5153960755200000000000000000000000) - (1/20 + 17/20 * (4096361249962570747087405913188247/10307921510400000000000000000000000)) by norm_num),
    abs_of_nonpos (show (738080050005226129097688961798629/3435973836800000000000000000000000) - (1/20 + 17/40 * (1998660055210875432809763600707933/5153960755200000000000000000000000)) ≤ (0:ℚ) by norm_num),
    abs_of_nonneg (show (0:ℚ) ≤ (4096361249962570747087405913188247/10307921510400000000000000000000000) - (1/20 + 17/40 * (1998660055210875432809763600707933/5153960755200000000000000000000000) + 17/20 * (738080050005226129097688961798629/3435973836800000000000000000000000)) by norm_num)]
  norm_num

/-- Iteration 25 of the worked example: the next rank vector. -/
theorem c8v24 : (pageRankStep ts3 dangle3 (85/100) ![79946062759763702700485900524200199/206158430208000000000000000000000000, 44285142448984882357765981212034861/206158430208000000000000000000000000, 4096361249962570747087405913188247/10307921510400000000000000000000000]).1 = ![79946062759763702700485900524200199/206158430208000000000000000000000000, 1771399927331982945908260308911403383/8246337208320000000000000000000000000, 1092364923532489648690767890040196219/2748779069440000000000000000000000000] := by
  rw [step3_vec (79946062759763702700485900524200199/206158430208000000000000000000000000) (44285142448984882357765981212034861/206158430208000000000000000000000000) (4096361249962570747087405913188247/10307921510400000000000000000000000) (by norm_num) (by norm_num) (by norm_num) (by norm_num)]
  funext i
  fin_cases i <;>
    norm_num [Matrix.cons_val_zero, Matrix.cons_val_one, Matrix.head_cons,
      Matrix.cons_val_two, Matrix.tail_cons]

/-- Iteration 25 of the worked example: the next residual. -/
theorem c8q24 : (pageRankStep ts3 dangle3 (85/100) ![79946062759763702700485900524200199/206158430208000000000000000000000000, 44285142448984882357765981212034861/206158430208000000000000000000000000, 4096361249962570747087405913188247/10307921510400000000000000000000000]).2 = 5770627412348402378939569991057/4123168604160000000000000000000000000 := by
  rw [step3_res (79946062759763702700485900524200199/206158430208000000000000000000000000) (44285142448984882357765981212034861/206158430208000000000000000000000000) (4096361249962570747087405913188247/10307921510400000000000000000000000) (by norm_num) (by norm_num) (by norm_num) (by norm_num)]
  rw [abs_of_nonneg (show (0:ℚ) ≤ (79946062759763702700485900524200199/206158430208000000000000000000000000) - (1/20 + 17/20 * (4096361249962570747087405913188247/10307921510400000000000000000000000)) by norm_num),
    abs_of_nonneg (show (0:ℚ) ≤ (44285142448984882357765981212034861/206158430208000000000000000000000000) - (1/20 + 17/40 * (79946062759763702700485900524200199/206158430208000000000000000000000000)) by norm_num),
    abs_of_nonpos (show (4096361249962570747087405913188247/10307921510400000000000000000000000) - (1/20 + 17/40 * (79946062759763702700485900524200199/206158430208000000000000000000000000) + 17/20 * (44285142448984882357765981212034861/206158430208000000000000000000000000)) ≤ (0:ℚ) by norm_num)]
  norm_num

/-- Iteration 26 of the worked example: the next rank vector. -/
theorem c8v25 : (pageRankStep ts3 dangle3 (85/100) ![79946062759763702700485900524200199/206158430208000000000000000000000000, 1771399927331982945908260308911403383/8246337208320000000000000000000000000, 1092364923532489648690767890040196219/2748779069440000000000000000000000000]).1 = ![21318982769492324027743054130683335723/54975581388800000000000000000000000000, 1771399927331982945908260308911403383/8246337208320000000000000000000000000, 65541797311283368998605631429721925171/164926744166400000000000000000000000000] := by
  rw [step3_vec (79946062759763702700485900524200199/206158430208000000000000000000000000) (1771399927331982945908260308911403383/8246337208320000000000000000000000000) (1092364923532489648690767890040196219/2748779069440000000000000000000000000) (by norm_num) (by norm_num) (by norm_num) (by norm_num)]
  funext i
  fin_cases i <;>
    norm_num [Matrix.cons_val_zero, Matrix.cons_val_one, Matrix.head_cons,
      Matrix.cons_val_two, Matrix.tail_cons]

/-- Iteration 26 of the worked example: the next residual. -/
theorem c8q25 : (pageRankStep ts3 dangle3 (85/100) ![79946062759763702700485900524200199/206158430208000000000000000000000000, 1771399927331982945908260308911403383/8246337208320000000000000000000000000, 1092364923532489648690767890040196219/2748779069440000000000000000000000000]).2 = 98100666009922840441972689847969/82463372083200000000000000000000000000 := by
  rw [step3_res (79946062759763702700485900524200199/206158430208000000000000000000000000) (1771399927331982945908260308911403383/8246337208320000000000000000000000000) (1092364923532489648690767890040196219/2748779069440000000000000000000000000) (by norm_num) (by norm_num) (by norm_num) (by norm_num)]
  rw [abs_of_nonpos (show (79946062759763702700485900524200199/206158430208000000000000000000000000) - (1/20 + 17/20 * (1092364923532489648690767890040196219/2748779069440000000000000000000000000)) ≤ (0:ℚ) by norm_num),
    abs_of_nonneg (show (0:ℚ) ≤ (1771399927331982945908260308911403383/8246337208320000000000000000000000000) - (1/20 + 17/40 * (79946062759763702700485900524200199/206158430208000000000000000000000000)) by norm_num),
    abs_of_nonneg (show (0:ℚ) ≤ (1092364923532489648690767890040196219/2748779069440000000000000000000000000) - (1/20 + 17/40 * (79946062759763702700485900524200199/206158430208000000000000000000000000) + 17/20 * (1771399927331982945908260308911403383/8246337208320000000000000000000000000)) by norm_num)]
  norm_num

/-- Iteration 27 of the worked example: the next rank vector. -/
theorem c8v26 : (pageRankStep ts3 dangle3 (85/100) ![21318982769492324027743054130683335723/54975581388800000000000000000000000000, 1771399927331982945908260308911403383/8246337208320000000000000000000000000, 65541797311283368998605631429721925171/164926744166400000000000000000000000000]).1 = ![1279137298458217272976295734305272727907/3298534883328000000000000000000000000000, 472373869858969508471631920221616707291/2199023255552000000000000000000000000000, 2621673560162656928632512770724604422313/6597069766656000000000000000000000000000] := by
  rw [step3_vec (21318982769492324027743054130683335723/54975581388800000000000000000000000000) (1771399927331982945908260308911403383/8246337208320000000000000000000000000) (65541797311283368998605631429721925171/164926744166400000000000000000000000000) (by norm_num) (by norm_num) (by norm_num) (by norm_num)]
  funext i
  fin_cases i <;>
    norm_num [Matrix.cons_val_zero, Matrix.cons_val_one, Matrix.head_cons,
      Matrix.cons_val_two, Matrix.tail_cons]

/-- Iteration 27 of the worked example: the next residual. -/
theorem c8q26 : (pageRankStep ts3 dangle3 (85/100) ![21318982769492324027743054130683335723/54975581388800000000000000000000000000, 1771399927331982945908260308911403383/8246337208320000000000000000000000000, 65541797311283368998605631429721925171/164926744166400000000000000000000000000]).2 = 1667711322168688287513535727415473/1649267441664000000000000000000000000000 := by
  rw [step3_res (21318982769492324027743054130683335723/54975581388800000000000000000000000000) (1771399927331982945908260308911403383/8246337208320000000000000000000000000) (65541797311283368998605631429721925171/164926744166400000000000000000000000000) (by norm_num) (by norm_num) (by norm_num) (by norm_num)]
  rw [abs_of_nonneg (show (0:ℚ) ≤ (21318982769492324027743054130683335723/54975581388800000000000000000000000000) - (1/20 + 17/20 * (65541797311283368998605631429721925171/164926744166400000000000000000000000000)) by norm_num),
    abs_of_nonpos (show (1771399927331982945908260308911403383/8246337208320000000000000000000000000) - (1/20 + 17/40 * (21318982769492324027743054130683335723/54975581388800000000000000000000000000)) ≤ (0:ℚ) by norm_num),
    abs_of_nonpos (show (65541797311283368998605631429721925171/164926744166400000000000000000000000000) - (1/20 + 17/40 * (21318982769492324027743054130683335723/54975581388800000000000000000000000000) + 17/20 * (1771399927331982945908260308911403383/8246337208320000000000000000000000000)) ≤ (0:ℚ) by norm_num)]
  norm_num

/-- Iteration 28 of the worked example: the next rank vector. -/
theorem c8v27 : (pageRankStep ts3 dangle3 (85/100) ![1279137298458217272976295734305272727907/3298534883328000000000000000000000000000, 472373869858969508471631920221616707291/2199023255552000000000000000000000000000, 2621673560162656928632512770724604422313/6597069766656000000000000000000000000000]).1 = ![51165520289421167786752717102318275179321/131941395333120000000000000000000000000000, 28342403840445693640597027483189636374419/131941395333120000000000000000000000000000, 2621673560162656928632512770724604422313/6597069766656000000000000000000000000000] := by
  rw [step3_vec (1279137298458217272976295734305272727907/3298534883328000000000000000000000000000) (472373869858969508471631920221616707291/2199023255552000000000000000000000000000) (2621673560162656928632512770724604422313/6597069766656000000000000000000000000000) (by norm_num) (by norm_num) (by norm_num) (by norm_num)]
  funext i
  fin_cases i <;>
    norm_num [Matrix.cons_val_zero, Matrix.cons_val_one, Matrix.head_cons,
      Matrix.cons_val_two, Matrix.tail_cons]

/-- Iteration 28 of the worked example: the next residual. -/
theorem c8q27 : (pageRankStep ts3 dangle3 (85/100) ![1279137298458217272976295734305272727907/3298534883328000000000000000000000000000, 472373869858969508471631920221616707291/2199023255552000000000000000000000000000, 2621673560162656928632512770724604422313/6597069766656000000000000000000000000000]).2 = 28351092476867700887730107366063041/65970697666560000000000000000000000000000 := by
  rw [step3_res (1279137298458217272976295734305272727907/3298534883328000000000000000000000000000) (472373869858969508471631920221616707291/2199023255552000000000000000000000000000) (2621673560162656928632512770724604422313/6597069766656000000000000000000000000000) (by norm_num) (by norm_num) (by norm_num) (by norm_num)]
  rw [abs_of_nonpos (show (1279137298458217272976295734305272727907/3298534883328000000000000000000000000000) - (1/20 + 17/20 * (2621673560162656928632512770724604422313/6597069766656000000000000000000000000000)) ≤ (0:ℚ) by norm_num),
    abs_of_nonneg (show (0:ℚ) ≤ (472373869858969508471631920221616707291/2199023255552000000000000000000000000000) - (1/20 + 17/40 * (1279137298458217272976295734305272727907/3298534883328000000000000000000000000000)) by norm_num),
    abs_of_nonneg (show (0:ℚ) ≤ (2621673560162656928632512770724604422313/6597069766656000000000000000000000000000) - (1/20 + 17/40 * (1279137298458217272976295734305272727907/3298534883328000000000000000000000000000) + 17/20 * (472373869858969508471631920221616707291/2199023255552000000000000000000000000000)) by norm_num)]
  norm_num

/-- Iteration 29 of the worked example: the next rank vector. -/
theorem c8v28 : (pageRankStep ts3 dangle3 (85/100) ![51165520289421167786752717102318275179321/131941395333120000000000000000000000000000, 28342403840445693640597027483189636374419/131941395333120000000000000000000000000000, 2621673560162656928632512770724604422313/6597069766656000000000000000000000000000]).1 = ![51165520289421167786752717102318275179321/131941395333120000000000000000000000000000, 1133696635586399852374796190739410678048457/5277655813324800000000000000000000000000000, 699112788720517812051698375055952771592901/1759218604441600000000000000000000000000000] := by
  rw [step3_vec (51165520289421167786752717102318275179321/131941395333120000000000000000000000000000) (28342403840445693640597027483189636374419/131941395333120000000000000000000000000000) (2621673560162656928632512770724604422313/6597069766656000000000000000000000000000) (by norm_num) (by norm_num) (by norm_num) (by norm_num)]
  funext i
  fin_cases i <;>
    norm_num [Matrix.cons_val_zero, Matrix.cons_val_one, Matrix.head_cons,
      Matrix.cons_val_two, Matrix.tail_cons]

/-- Iteration 29 of the worked example: the next residual. -/
theorem c8q28 : (pageRankStep ts3 dangle3 (85/100) ![51165520289421167786752717102318275179321/131941395333120000000000000000000000000000, 28342403840445693640597027483189636374419/131941395333120000000000000000000000000000, 2621673560162656928632512770724604422313/6597069766656000000000000000000000000000]).2 = 481968572106750915091411825223071697/2638827906662400000000000000000000000000000 := by
  rw [step3_res (51165520289421167786752717102318275179321/131941395333120000000000000000000000000000) (28342403840445693640597027483189636374419/131941395333120000000000000000000000000000) (2621673560162656928632512770724604422313/6597069766656000000000000000000000000000) (by norm_num) (by norm_num) (by norm_num) (by norm_num)]
  rw [abs_of_nonneg (show (0:ℚ) ≤ (51165520289421167786752717102318275179321/131941395333120000000000000000000000000000) - (1/20 + 17/20 * (2621673560162656928632512770724604422313/6597069766656000000000000000000000000000)) by norm_num),
    abs_of_nonpos (show (28342403840445693640597027483189636374419/131941395333120000000000000000000000000000) - (1/20 + 17/40 * (51165520289421167786752717102318275179321/131941395333120000000000000000000000000000)) ≤ (0:ℚ) by norm_num),
    abs_of_nonneg (show (0:ℚ) ≤ (2621673560162656928632512770724604422313/6597069766656000000000000000000000000000) - (1/20 + 17/40 * (51165520289421167786752717102318275179321/131941395333120000000000000000000000000000) + 17/20 * (28342403840445693640597027483189636374419/131941395333120000000000000000000000000000)) by norm_num)]
  norm_num

/-- Iteration 30 of the worked example: the next rank vector. -/
theorem c8v29 : (pageRankStep ts3 dangle3 (85/100) ![51165520289421167786752717102318275179321/131941395333120000000000000000000000000000, 1133696635586399852374796190739410678048457/5277655813324800000000000000000000000000000, 699112788720517812051698375055952771592901/1759218604441600000000000000000000000000000]).1 = ![13644136012690402804878872375951197117079317/35184372088832000000000000000000000000000000, 1133696635586399852374796190739410678048457/5277655813324800000000000000000000000000000, 41946775516696794537867459057358195087792909/105553116266496000000000000000000000000000000] := by
  rw [step3_vec (51165520289421167786752717102318275179321/131941395333120000000000000000000000000000) (1133696635586399852374796190739410678048457/5277655813324800000000000000000000000000000) (699112788720517812051698375055952771592901/1759218604441600000000000000000000000000000) (by norm_num) (by norm_num) (by norm_num) (by norm_num)]
  funext i
  fin_cases i <;>
    norm_num [Matrix.cons_val_zero, Matrix.cons_val_one, Matrix.head_cons,
      Matrix.cons_val_two, Matrix.tail_cons]

/-- Iteration 30 of the worked example: the next residual. -/
theorem c8q29 : (pageRankStep ts3 dangle3 (85/100) ![51165520289421167786752717102318275179321/131941395333120000000000000000000000000000, 1133696635586399852374796190739410678048457/5277655813324800000000000000000000000000000, 699112788720517812051698375055952771592901/1759218604441600000000000000000000000000000]).2 = 8193465725814765556554001028792218849/52776558133248000000000000000000000000000000 := by
  rw [step3_res (51165520289421167786752717102318275179321/131941395333120000000000000000000000000000) (1133696635586399852374796190739410678048457/5277655813324800000000000000000000000000000) (699112788720517812051698375055952771592901/1759218604441600000000000000000000000000000) (by norm_num) (by norm_num) (by norm_num) (by norm_num)]
  rw [abs_of_nonneg (show (0:ℚ) ≤ (51165520289421167786752717102318275179321/131941395333120000000000000000000000000000) - (1/20 + 17/20 * (699112788720517812051698375055952771592901/1759218604441600000000000000000000000000000)) by norm_num),
    abs_of_nonneg (show (0:ℚ) ≤ (1133696635586399852374796190739410678048457/5277655813324800000000000000000000000000000) - (1/20 + 17/40 * (51165520289421167786752717102318275179321/131941395333120000000000000000000000000000)) by norm_num),
    abs_of_nonpos (show (699112788720517812051698375055952771592901/1759218604441600000000000000000000000000000) - (1/20 + 17/40 * (51165520289421167786752717102318275179321/131941395333120000000000000000000000000000) + 17/20 * (1133696635586399852374796190739410678048457/5277655813324800000000000000000000000000000)) ≤ (0:ℚ) by norm_num)]
  norm_num

/-- Iteration 31 of the worked example: the next rank vector. -/
theorem c8v30 : (pageRankStep ts3 dangle3 (85/100) ![13644136012690402804878872375951197117079317/35184372088832000000000000000000000000000000, 1133696635586399852374796190739410678048457/5277655813324800000000000000000000000000000, 41946775516696794537867459057358195087792909/105553116266496000000000000000000000000000000]).1 = ![818648300050341507143746803975089316492479453/2111062325329920000000000000000000000000000000, 302319056393400847682940830391170350990348389/1407374883553280000000000000000000000000000000, 1677870881378954442663683900876310314043995927/4222124650659840000000000000000000000000000000] := by
  rw [step3_vec (13644136012690402804878872375951197117079317/35184372088832000000000000000000000000000000) (1133696635586399852374796190739410678048457/5277655813324800000000000000000000000000000) (41946775516696794537867459057358195087792909/105553116266496000000000000000000000000000000) (by norm_num) (by norm_num) (by norm_num) (by norm_num)]
  funext i
  fin_cases i <;>
    norm_num [Matrix.cons_val_zero, Matrix.cons_val_one, Matrix.head_cons,
      Matrix.cons_val_two, Matrix.tail_cons]

/-- Iteration 31 of the worked example: the next residual. -/
theorem c8q30 : (pageRankStep ts3 dangle3 (85/100) ![13644136012690402804878872375951197117079317/35184372088832000000000000000000000000000000, 1133696635586399852374796190739410678048457/5277655813324800000000000000000000000000000, 41946775516696794537867459057358195087792909/105553116266496000000000000000000000000000000]).2 = 139288917338851014461418017489467720433/1055531162664960000000000000000000000000000000 := by
  rw [step3_res (13644136012690402804878872375951197117079317/35184372088832000000000000000000000000000000) (1133696635586399852374796190739410678048457/5277655813324800000000000000000000000000000) (41946775516696794537867459057358195087792909/105553116266496000000000000000000000000000000) (by norm_num) (by norm_num) (by norm_num) (by norm_num)]
  rw [abs_of_nonpos (show (13644136012690402804878872375951197117079317/35184372088832000000000000000000000000000000) - (1/20 + 17/20 * (41946775516696794537867459057358195087792909/105553116266496000000000000000000000000000000)) ≤ (0:ℚ) by norm_num),
    abs_of_nonneg (show (0:ℚ) ≤ (1133696635586399852374796190739410678048457/5277655813324800000000000000000000000000000) - (1/20 + 17/40 * (13644136012690402804878872375951197117079317/35184372088832000000000000000000000000000000)) by norm_num),
    abs_of_nonneg (show (0:ℚ) ≤ (41946775516696794537867459057358195087792909/105553116266496000000000000000000000000000000) - (1/20 + 17/40 * (13644136012690402804878872375951197117079317/35184372088832000000000000000000000000000000) + 17/20 * (1133696635586399852374796190739410678048457/5277655813324800000000000000000000000000000)) by norm_num)]
  norm_num

/-- Iteration 32 of the worked example: the next rank vector. -/
theorem c8v31 : (pageRankStep ts3 dangle3 (85/100) ![818648300050341507143746803975089316492479453/2111062325329920000000000000000000000000000000, 302319056393400847682940830391170350990348389/1407374883553280000000000000000000000000000000, 1677870881378954442663683900876310314043995927/4222124650659840000000000000000000000000000000]).1 = ![32745929634102065525282626314897275338747930759/84442493013196800000000000000000000000000000000, 18139145751515645621443695667576518380372150701/84442493013196800000000000000000000000000000000, 1677870881378954442663683900876310314043995927/4222124650659840000000000000000000000000000000] := by
  rw [step3_vec (818648300050341507143746803975089316492479453/2111062325329920000000000000000000000000000000) (302319056393400847682940830391170350990348389/1407374883553280000000000000000000000000000000) (1677870881378954442663683900876310314043995927/4222124650659840000000000000000000000000000000) (by norm_num) (by norm_num) (by norm_num) (by norm_num)]
  funext i
  fin_cases i <;>
    norm_num [Matrix.cons_val_zero, Matrix.cons_val_one, Matrix.head_cons,
      Matrix.cons_val_two, Matrix.tail_cons]

/-- Iteration 32 of the worked example: the next residual. -/
theorem c8q31 : (pageRankStep ts3 dangle3 (85/100) ![818648300050341507143746803975089316492479453/2111062325329920000000000000000000000000000000, 302319056393400847682940830391170350990348389/1407374883553280000000000000000000000000000000, 1677870881378954442663683900876310314043995927/4222124650659840000000000000000000000000000000]).2 = 2367911594760467245844106297320951247361/42221246506598400000000000000000000000000000000 := by
  rw [step3_res (818648300050341507143746803975089316492479453/2111062325329920000000000000000000000000000000) (302319056393400847682940830391170350990348389/1407374883553280000000000000000000000000000000) (1677870881378954442663683900876310314043995927/4222124650659840000000000000000000000000000000) (by norm_num) (by norm_num) (by norm_num) (by norm_num)]
  rw [abs_of_nonneg (show (0:ℚ) ≤ (818648300050341507143746803975089316492479453/2111062325329920000000000000000000000000000000) - (1/20 + 17/20 * (1677870881378954442663683900876310314043995927/4222124650659840000000000000000000000000000000)) by norm_num),
    abs_of_nonpos (show (302319056393400847682940830391170350990348389/1407374883553280000000000000000000000000000000) - (1/20 + 17/40 * (818648300050341507143746803975089316492479453/2111062325329920000000000000000000000000000000)) ≤ (0:ℚ) by norm_num),
    abs_of_nonneg (show (0:ℚ) ≤ (1677870881378954442663683900876310314043995927/4222124650659840000000000000000000000000000000) - (1/20 + 17/40 * (818648300050341507143746803975089316492479453/2111062325329920000000000000000000000000000000) + 17/20 * (302319056393400847682940830391170350990348389/1407374883553280000000000000000000000000000000)) by norm_num)]
  norm_num

/-- The full run of the worked example: the solver performs exactly 32
iterations and stops by the residual test. -/
theorem c8chain : pageRank ts3 dangle3 (85/100) (1/10000000) 50 = (![32745929634102065525282626314897275338747930759/84442493013196800000000000000000000000000000000, 18139145751515645621443695667576518380372150701/84442493013196800000000000000000000000000000000, 1677870881378954442663683900876310314043995927/4222124650659840000000000000000000000000000000], 2367911594760467245844106297320951247361/42221246506598400000000000000000000000000000000, 32, "residual") := by
  have huVec3 : uVec 3 = ![1/3, 1/3, 1/3] := by
    funext i
    fin_cases i <;> norm_num [uVec]
  have h32 : pageRankGo ts3 dangle3 (85/100) (1/10000000) 18 ![32745929634102065525282626314897275338747930759/84442493013196800000000000000000000000000000000, 18139145751515645621443695667576518380372150701/84442493013196800000000000000000000000000000000, 1677870881378954442663683900876310314043995927/4222124650659840000000000000000000000000000000] (2367911594760467245844106297320951247361/42221246506598400000000000000000000000000000000) 32 = (![32745929634102065525282626314897275338747930759/84442493013196800000000000000000000000000000000, 18139145751515645621443695667576518380372150701/84442493013196800000000000000000000000000000000, 1677870881378954442663683900876310314043995927/4222124650659840000000000000000000000000000000], 2367911594760467245844106297320951247361/42221246506598400000000000000000000000000000000, 32, "residual") :=
    pageRankGo_stop _ _ _ _ _ _ _ _ (by norm_num)
  have h31 : pageRankGo ts3 dangle3 (85/100) (1/10000000) (18 + 1) ![818648300050341507143746803975089316492479453/2111062325329920000000000000000000000000000000, 302319056393400847682940830391170350990348389/1407374883553280000000000000000000000000000000, 1677870881378954442663683900876310314043995927/4222124650659840000000000000000000000000000000] (139288917338851014461418017489467720433/1055531162664960000000000000000000000000000000) 31 = (![32745929634102065525282626314897275338747930759/84442493013196800000000000000000000000000000000, 18139145751515645621443695667576518380372150701/84442493013196800000000000000000000000000000000, 1677870881378954442663683900876310314043995927/4222124650659840000000000000000000000000000000], 2367911594760467245844106297320951247361/42221246506598400000000000000000000000000000000, 32, "residual") := by
    rw [pageRankGo_iter ts3 dangle3 (85/100) (1/10000000) 18 ![818648300050341507143746803975089316492479453/2111062325329920000000000000000000000000000000, 302319056393400847682940830391170350990348389/1407374883553280000000000000000000000000000000, 1677870881378954442663683900876310314043995927/4222124650659840000000000000000000000000000000] (139288917338851014461418017489467720433/1055531162664960000000000000000000000000000000) 31 (by norm_num),
      c8v31, c8q31]
    exact h32
  have h30 : pageRankGo ts3 dangle3 (85/100) (1/10000000) (19 + 1) ![13644136012690402804878872375951197117079317/35184372088832000000000000000000000000000000, 1133696635586399852374796190739410678048457/5277655813324800000000000000000000000000000, 41946775516696794537867459057358195087792909/105553116266496000000000000000000000000000000] (8193465725814765556554001028792218849/52776558133248000000000000000000000000000000) 30 = (![32745929634102065525282626314897275338747930759/84442493013196800000000000000000000000000000000, 18139145751515645621443695667576518380372150701/84442493013196800000000000000000000000000000000, 1677870881378954442663683900876310314043995927/4222124650659840000000000000000000000000000000], 2367911594760467245844106297320951247361/42221246506598400000000000000000000000000000000, 32, "residual") := by
    rw [pageRankGo_iter ts3 dangle3 (85/100) (1/10000000) 19 ![13644136012690402804878872375951197117079317/35184372088832000000000000000000000000000000, 1133696635586399852374796190739410678048457/5277655813324800000000000000000000000000000, 41946775516696794537867459057358195087792909/105553116266496000000000000000000000000000000] (8193465725814765556554001028792218849/52776558133248000000000000000000000000000000) 30 (by norm_num),
      c8v30, c8q30]
    exact h31
  have h29 : pageRankGo ts3 dangle3 (85/100) (1/10000000) (20 + 1) ![51165520289421167786752717102318275179321/131941395333120000000000000000000000000000, 1133696635586399852374796190739410678048457/5277655813324800000000000000000000000000000, 699112788720517812051698375055952771592901/1759218604441600000000000000000000000000000] (481968572106750915091411825223071697/2638827906662400000000000000000000000000000) 29 = (![32745929634102065525282626314897275338747930759/84442493013196800000000000000000000000000000000, 18139145751515645621443695667576518380372150701/84442493013196800000000000000000000000000000000, 1677870881378954442663683900876310314043995927/4222124650659840000000000000000000000000000000], 2367911594760467245844106297320951247361/42221246506598400000000000000000000000000000000, 32, "residual") := by
    rw [pageRankGo_iter ts3 dangle3 (85/100) (1/10000000) 20 ![51165520289421167786752717102318275179321/131941395333120000000000000000000000000000, 1133696635586399852374796190739410678048457/5277655813324800000000000000000000000000000, 699112788720517812051698375055952771592901/1759218604441600000000000000000000000000000] (481968572106750915091411825223071697/2638827906662400000000000000000000000000000) 29 (by norm_num),
      c8v29, c8q29]
    exact h30
  have h28 : pageRankGo ts3 dangle3 (85/100) (1/10000000) (21 + 1) ![51165520289421167786752717102318275179321/131941395333120000000000000000000000000000, 28342403840445693640597027483189636374419/131941395333120000000000000000000000000000, 2621673560162656928632512770724604422313/6597069766656000000000000000000000000000] (28351092476867700887730107366063041/65970697666560000000000000000000000000000) 28 = (![32745929634102065525282626314897275338747930759/84442493013196800000000000000000000000000000000, 18139145751515645621443695667576518380372150701/84442493013196800000000000000000000000000000000, 1677870881378954442663683900876310314043995927/4222124650659840000000000000000000000000000000], 2367911594760467245844106297320951247361/42221246506598400000000000000000000000000000000, 32, "residual") := by
    rw [pageRankGo_iter ts3 dangle3 (85/100) (1/10000000) 21 ![51165520289421167786752717102318275179321/131941395333120000000000000000000000000000, 28342403840445693640597027483189636374419/131941395333120000000000000000000000000000, 2621673560162656928632512770724604422313/6597069766656000000000000000000000000000] (28351092476867700887730107366063041/65970697666560000000000000000000000000000) 28 (by norm_num),
      c8v28, c8q28]
    exact h29
  have h27 : pageRankGo ts3 dangle3 (85/100) (1/10000000) (22 + 1) ![1279137298458217272976295734305272727907/3298534883328000000000000000000000000000, 472373869858969508471631920221616707291/2199023255552000000000000000000000000000, 2621673560162656928632512770724604422313/6597069766656000000000000000000000000000] (1667711322168688287513535727415473/1649267441664000000000000000000000000000) 27 = (![32745929634102065525282626314897275338747930759/84442493013196800000000000000000000000000000000, 18139145751515645621443695667576518380372150701/84442493013196800000000000000000000000000000000, 1677870881378954442663683900876310314043995927/4222124650659840000000000000000000000000000000], 2367911594760467245844106297320951247361/42221246506598400000000000000000000000000000000, 32, "residual") := by
    rw [pageRankGo_iter ts3 dangle3 (85/100) (1/10000000) 22 ![1279137298458217272976295734305272727907/3298534883328000000000000000000000000000, 472373869858969508471631920221616707291/2199023255552000000000000000000000000000, 2621673560162656928632512770724604422313/6597069766656000000000000000000000000000] (1667711322168688287513535727415473/1649267441664000000000000000000000000000) 27 (by norm_num),
      c8v27, c8q27]
    exact h28
  have h26 : pageRankGo ts3 dangle3 (85/100) (1/10000000) (23 + 1) ![21318982769492324027743054130683335723/54975581388800000000000000000000000000, 1771399927331982945908260308911403383/8246337208320000000000000000000000000, 65541797311283368998605631429721925171/164926744166400000000000000000000000000] (98100666009922840441972689847969/82463372083200000000000000000000000000) 26 = (![32745929634102065525282626314897275338747930759/84442493013196800000000000000000000000000000000, 18139145751515645621443695667576518380372150701/84442493013196800000000000000000000000000000000, 1677870881378954442663683900876310314043995927/4222124650659840000000000000000000000000000000], 2367911594760467245844106297320951247361/42221246506598400000000000000000000000000000000, 32, "residual") := by
    rw [pageRankGo_iter ts3 dangle3 (85/100) (1/10000000) 23 ![21318982769492324027743054130683335723/54975581388800000000000000000000000000, 1771399927331982945908260308911403383/8246337208320000000000000000000000000, 65541797311283368998605631429721925171/164926744166400000000000000000000000000] (98100666009922840441972689847969/82463372083200000000000000000000000000) 26 (by norm_num),
      c8v26, c8q26]
    exact h27
  have h25 : pageRankGo ts3 dangle3 (85/100) (1/10000000) (24 + 1) ![79946062759763702700485900524200199/206158430208000000000000000000000000, 1771399927331982945908260308911403383/8246337208320000000000000000000000000, 1092364923532489648690767890040196219/2748779069440000000000000000000000000] (5770627412348402378939569991057/4123168604160000000000000000000000000) 25 = (![32745929634102065525282626314897275338747930759/84442493013196800000000000000000000000000000000, 18139145751515645621443695667576518380372150701/84442493013196800000000000000000000000000000000, 1677870881378954442663683900876310314043995927/4222124650659840000000000000000000000000000000], 2367911594760467245844106297320951247361/42221246506598400000000000000000000000000000000, 32, "residual") := by
    rw [pageRankGo_iter ts3 dangle3 (85/100) (1/10000000) 24 ![79946062759763702700485900524200199/206158430208000000000000000000000000, 1771399927331982945908260308911403383/8246337208320000000000000000000000000, 1092364923532489648690767890040196219/2748779069440000000000000000000000000] (5770627412348402378939569991057/4123168604160000000000000000000000000) 25 (by norm_num),
      c8v25, c8q25]
    exact h26
  have h24 : pageRankGo ts3 dangle3 (85/100) (1/10000000) (25 + 1) ![79946062759763702700485900524200199/206158430208000000000000000000000000, 44285142448984882357765981212034861/206158430208000000000000000000000000, 4096361249962570747087405913188247/10307921510400000000000000000000000] (339448671314611904643504117121/103079215104000000000000000000000000) 24 = (![32745929634102065525282626314897275338747930759/84442493013196800000000000000000000000000000000, 18139145751515645621443695667576518380372150701/84442493013196800000000000000000000000000000000, 1677870881378954442663683900876310314043995927/4222124650659840000000000000000000000000000000], 2367911594760467245844106297320951247361/42221246506598400000000000000000000000000000000, 32, "residual") := by
    rw [pageRankGo_iter ts3 dangle3 (85/100) (1/10000000) 25 ![79946062759763702700485900524200199/206158430208000000000000000000000000, 44285142448984882357765981212034861/206158430208000000000000000000000000, 4096361249962570747087405913188247/10307921510400000000000000000000000] (339448671314611904643504117121/103079215104000000000000000000000000) 24 (by norm_num),
      c8v24, c8q24]
    exact h25
  have h23 : pageRankGo ts3 dangle3 (85/100) (1/10000000) (26 + 1) ![1998660055210875432809763600707933/5153960755200000000000000000000000, 738080050005226129097688961798629/3435973836800000000000000000000000, 4096361249962570747087405913188247/10307921510400000000000000000000000] (19967568900859523802559065713/2576980377600000000000000000000000) 23 = (![32745929634102065525282626314897275338747930759/84442493013196800000000000000000000000000000000, 18139145751515645621443695667576518380372150701/84442493013196800000000000000000000000000000000, 1677870881378954442663683900876310314043995927/4222124650659840000000000000000000000000000000], 2367911594760467245844106297320951247361/42221246506598400000000000000000000000000000000, 32, "residual") := by
    rw [pageRankGo_iter ts3 dangle3 (85/100) (1/10000000) 26 ![1998660055210875432809763600707933/5153960755200000000000000000000000, 738080050005226129097688961798629/3435973836800000000000000000000000, 4096361249962570747087405913188247/10307921510400000000000000000000000] (19967568900859523802559065713/2576980377600000000000000000000000) 23 (by norm_num),
      c8v23, c8q23]
    exact h24
  have h22 : pageRankGo ts3 dangle3 (85/100) (1/10000000) (27 + 1) ![33310668127366242888099350694037/85899345920000000000000000000000, 2767825146980724058521086805577/12884901888000000000000000000000, 102409530438286790165280211806349/257698037760000000000000000000000] (1174562876521148458974062689/128849018880000000000000000000000) 22 = (![32745929634102065525282626314897275338747930759/84442493013196800000000000000000000000000000000, 18139145751515645621443695667576518380372150701/84442493013196800000000000000000000000000000000, 1677870881378954442663683900876310314043995927/4222124650659840000000000000000000000000000000], 2367911594760467245844106297320951247361/42221246506598400000000000000000000000000000000, 32, "residual") := by
    rw [pageRankGo_iter ts3 dangle3 (85/100) (1/10000000) 27 ![33310668127366242888099350694037/85899345920000000000000000000000, 2767825146980724058521086805577/12884901888000000000000000000000, 102409530438286790165280211806349/257698037760000000000000000000000] (1174562876521148458974062689/128849018880000000000000000000000) 22 (by norm_num),
      c8v22, c8q22]
    exact h23
  have h21 : pageRankGo ts3 dangle3 (85/100) (1/10000000) (28 + 1) ![124916473681219062265946282681/322122547200000000000000000000, 2767825146980724058521086805577/12884901888000000000000000000000, 1706805931256837816947020629061/4294967296000000000000000000000] (69091933913008732880827217/6442450944000000000000000000000) 21 = (![32745929634102065525282626314897275338747930759/84442493013196800000000000000000000000000000000, 18139145751515645621443695667576518380372150701/84442493013196800000000000000000000000000000000, 1677870881378954442663683900876310314043995927/4222124650659840000000000000000000000000000000], 2367911594760467245844106297320951247361/42221246506598400000000000000000000000000000000, 32, "residual") := by
    rw [pageRankGo_iter ts3 dangle3 (85/100) (1/10000000) 28 ![124916473681219062265946282681/322122547200000000000000000000, 2767825146980724058521086805577/12884901888000000000000000000000, 1706805931256837816947020629061/4294967296000000000000000000000] (69091933913008732880827217/6442450944000000000000000000000) 21 (by norm_num),
      c8v21, c8q21]
    exact h22
  have h20 : pageRankGo ts3 dangle3 (85/100) (1/10000000) (29 + 1) ![124916473681219062265946282681/322122547200000000000000000000, 69193901376170276244705149459/322122547200000000000000000000, 6400608607130533074467428393/16106127360000000000000000000] (4064231406647572522401601/161061273600000000000000000000) 20 = (![32745929634102065525282626314897275338747930759/84442493013196800000000000000000000000000000000, 18139145751515645621443695667576518380372150701/84442493013196800000000000000000000000000000000, 1677870881378954442663683900876310314043995927/4222124650659840000000000000000000000000000000], 2367911594760467245844106297320951247361/42221246506598400000000000000000000000000000000, 32, "residual") := by
    rw [pageRankGo_iter ts3 dangle3 (85/100) (1/10000000) 29 ![124916473681219062265946282681/322122547200000000000000000000, 69193901376170276244705149459/322122547200000000000000000000, 6400608607130533074467428393/16106127360000000000000000000] (4064231406647572522401601/161061273600000000000000000000) 20 (by norm_num),
      c8v20, c8q20]
    exact h21
  have h19 : pageRankGo ts3 dangle3 (85/100) (1/10000000) (30 + 1) ![3122810236245310367335597027/8053063680000000000000000000, 1153299426792948730287125851/5368709120000000000000000000, 6400608607130533074467428393/16106127360000000000000000000] (239072435685151324847153/4026531840000000000000000000) 19 = (![32745929634102065525282626314897275338747930759/84442493013196800000000000000000000000000000000, 18139145751515645621443695667576518380372150701/84442493013196800000000000000000000000000000000, 1677870881378954442663683900876310314043995927/4222124650659840000000000000000000000000000000], 2367911594760467245844106297320951247361/42221246506598400000000000000000000000000000000, 32, "residual") := by
    rw [pageRankGo_iter ts3 dangle3 (85/100) (1/10000000) 30 ![3122810236245310367335597027/8053063680000000000000000000, 1153299426792948730287125851/5368709120000000000000000000, 6400608607130533074467428393/16106127360000000000000000000] (239072435685151324847153/4026531840000000000000000000) 19 (by norm_num),
      c8v19, c8q19]
    exact h20
  have h18 : pageRankGo ts3 dangle3 (85/100) (1/10000000) (31 + 1) ![52050821811349925311007403/134217728000000000000000000, 4324574009928951299420663/20132659200000000000000000, 160009238367371198078564531/402653184000000000000000000] (14063084452067724991009/201326592000000000000000000) 18 = (![32745929634102065525282626314897275338747930759/84442493013196800000000000000000000000000000000, 18139145751515645621443695667576518380372150701/84442493013196800000000000000000000000000000000, 1677870881378954442663683900876310314043995927/4222124650659840000000000000000000000000000000], 2367911594760467245844106297320951247361/42221246506598400000000000000000000000000000000, 32, "residual") := by
    rw [pageRankGo_iter ts3 dangle3 (85/100) (1/10000000) 31 ![52050821811349925311007403/134217728000000000000000000, 4324574009928951299420663/20132659200000000000000000, 160009238367371198078564531/402653184000000000000000000] (14063084452067724991009/201326592000000000000000000) 18 (by norm_num),
      c8v18, c8q18]
    exact h19
  have h17 : pageRankGo ts3 dangle3 (85/100) (1/10000000) (32 + 1) ![195173002936997135260039/503316480000000000000000, 4324574009928951299420663/20132659200000000000000000, 2667055024197054430059259/6710886400000000000000000] (827240261886336764177/10066329600000000000000000) 17 = (![32745929634102065525282626314897275338747930759/84442493013196800000000000000000000000000000000, 18139145751515645621443695667576518380372150701/84442493013196800000000000000000000000000000000, 1677870881378954442663683900876310314043995927/4222124650659840000000000000000000000000000000], 2367911594760467245844106297320951247361/42221246506598400000000000000000000000000000000, 32, "residual") := by
    rw [pageRankGo_iter ts3 dangle3 (85/100) (1/10000000) 32 ![195173002936997135260039/503316480000000000000000, 4324574009928951299420663/20132659200000000000000000, 2667055024197054430059259/6710886400000000000000000] (827240261886336764177/10066329600000000000000000) 17 (by norm_num),
      c8v17, c8q17]
    exact h18
  have h16 : pageRankGo ts3 dangle3 (85/100) (1/10000000) (33 + 1) ![195173002936997135260039/503316480000000000000000, 108135031254770940904621/503316480000000000000000, 10000422290411596191767/25165824000000000000000] (48661191875666868481/251658240000000000000000) 16 = (![32745929634102065525282626314897275338747930759/84442493013196800000000000000000000000000000000, 18139145751515645621443695667576518380372150701/84442493013196800000000000000000000000000000000, 1677870881378954442663683900876310314043995927/4222124650659840000000000000000000000000000000], 2367911594760467245844106297320951247361/42221246506598400000000000000000000000000000000, 32, "residual") := by
    rw [pageRankGo_iter ts3 dangle3 (85/100) (1/10000000) 33 ![195173002936997135260039/503316480000000000000000, 108135031254770940904621/503316480000000000000000, 10000422290411596191767/25165824000000000000000] (48661191875666868481/251658240000000000000000) 16 (by norm_num),
      c8v16, c8q16]
    exact h17
  have h15 : pageRankGo ts3 dangle3 (85/100) (1/10000000) (34 + 1) ![4880541603221820053213/12582912000000000000000, 1801439501048254567269/8388608000000000000000, 10000422290411596191767/25165824000000000000000] (2862423051509815793/6291456000000000000000) 15 = (![32745929634102065525282626314897275338747930759/84442493013196800000000000000000000000000000000, 18139145751515645621443695667576518380372150701/84442493013196800000000000000000000000000000000, 1677870881378954442663683900876310314043995927/4222124650659840000000000000000000000000000000], 2367911594760467245844106297320951247361/42221246506598400000000000000000000000000000000, 32, "residual") := by
    rw [pageRankGo_iter ts3 dangle3 (85/100) (1/10000000) 34 ![4880541603221820053213/12582912000000000000000, 1801439501048254567269/8388608000000000000000, 10000422290411596191767/25165824000000000000000] (2862423051509815793/6291456000000000000000) 15 (by norm_num),
      c8v15, c8q15]
    exact h16
  have h14 : pageRankGo ts3 dangle3 (85/100) (1/10000000) (35 + 1) ![81294653002838503957/209715200000000000000, 6758976157745341897/31457280000000000000, 250082117836577650189/629145600000000000000] (168377826559400929/314572800000000000000) 14 = (![32745929634102065525282626314897275338747930759/84442493013196800000000000000000000000000000000, 18139145751515645621443695667576518380372150701/84442493013196800000000000000000000000000000000, 1677870881378954442663683900876310314043995927/4222124650659840000000000000000000000000000000], 2367911594760467245844106297320951247361/42221246506598400000000000000000000000000000000, 32, "residual") := by
    rw [pageRankGo_iter ts3 dangle3 (85/100) (1/10000000) 35 ![81294653002838503957/209715200000000000000, 6758976157745341897/31457280000000000000, 250082117836577650189/629145600000000000000] (168377826559400929/314572800000000000000) 14 (by norm_num),
      c8v14, c8q14]
    exact h15
  have h13 : pageRankGo ts3 dangle3 (85/100) (1/10000000) (36 + 1) ![305065421043843641/786432000000000000, 6758976157745341897/31457280000000000000, 4165229000166970821/10485760000000000000] (9904578032905937/15728640000000000000) 13 = (![32745929634102065525282626314897275338747930759/84442493013196800000000000000000000000000000000, 18139145751515645621443695667576518380372150701/84442493013196800000000000000000000000000000000, 1677870881378954442663683900876310314043995927/4222124650659840000000000000000000000000000000], 2367911594760467245844106297320951247361/42221246506598400000000000000000000000000000000, 32, "residual") := by
    rw [pageRankGo_iter ts3 dangle3 (85/100) (1/10000000) 36 ![305065421043843641/786432000000000000, 6758976157745341897/31457280000000000000, 4165229000166970821/10485760000000000000] (9904578032905937/15728640000000000000) 13 (by norm_num),
      c8v13, c8q13]
    exact h14
  have h12 : pageRankGo ts3 dangle3 (85/100) (1/10000000) (37 + 1) ![305065421043843641/786432000000000000, 168726789492810899/786432000000000000, 15631989473167273/39321600000000000] (582622237229761/393216000000000000) 12 = (![32745929634102065525282626314897275338747930759/84442493013196800000000000000000000000000000000, 18139145751515645621443695667576518380372150701/84442493013196800000000000000000000000000000000, 1677870881378954442663683900876310314043995927/4222124650659840000000000000000000000000000000], 2367911594760467245844106297320951247361/42221246506598400000000000000000000000000000000, 32, "residual") := by
    rw [pageRankGo_iter ts3 dangle3 (85/100) (1/10000000) 37 ![305065421043843641/786432000000000000, 168726789492810899/786432000000000000, 15631989473167273/39321600000000000] (582622237229761/393216000000000000) 12 (by norm_num),
      c8v12, c8q12]
    exact h13
  have h11 : pageRankGo ts3 dangle3 (85/100) (1/10000000) (38 + 1) ![7612069970165347/19660800000000000, 2821823528834011/13107200000000000, 15631989473167273/39321600000000000] (34271896307633/9830400000000000) 11 = (![32745929634102065525282626314897275338747930759/84442493013196800000000000000000000000000000000, 18139145751515645621443695667576518380372150701/84442493013196800000000000000000000000000000000, 1677870881378954442663683900876310314043995927/4222124650659840000000000000000000000000000000], 2367911594760467245844106297320951247361/42221246506598400000000000000000000000000000000, 32, "residual") := by
    rw [pageRankGo_iter ts3 dangle3 (85/100) (1/10000000) 38 ![7612069970165347/19660800000000000, 2821823528834011/13107200000000000, 15631989473167273/39321600000000000] (34271896307633/9830400000000000) 11 (by norm_num),
      c8v11, c8q11]
    exact h12
  have h10 : pageRankGo ts3 dangle3 (85/100) (1/10000000) (39 + 1) ![127439031107883/327680000000000, 10538998362743/49152000000000, 389942939421491/983040000000000] (2015993900449/491520000000000) 10 = (![32745929634102065525282626314897275338747930759/84442493013196800000000000000000000000000000000, 18139145751515645621443695667576518380372150701/84442493013196800000000000000000000000000000000, 1677870881378954442663683900876310314043995927/4222124650659840000000000000000000000000000000], 2367911594760467245844106297320951247361/42221246506598400000000000000000000000000000000, 32, "residual") := by
    rw [pageRankGo_iter ts3 dangle3 (85/100) (1/10000000) 39 ![127439031107883/327680000000000, 10538998362743/49152000000000, 389942939421491/983040000000000] (2015993900449/491520000000000) 10 (by norm_num),
      c8v10, c8q10]
    exact h11
  have h9 : pageRankGo ts3 dangle3 (85/100) (1/10000000) (40 + 1) ![475376374279/1228800000000, 10538998362743/49152000000000, 6532648888699/16384000000000] (118587876497/24576000000000) 9 = (![32745929634102065525282626314897275338747930759/84442493013196800000000000000000000000000000000, 18139145751515645621443695667576518380372150701/84442493013196800000000000000000000000000000000, 1677870881378954442663683900876310314043995927/4222124650659840000000000000000000000000000000], 2367911594760467245844106297320951247361/42221246506598400000000000000000000000000000000, 32, "residual") := by
    rw [pageRankGo_iter ts3 dangle3 (85/100) (1/10000000) 40 ![475376374279/1228800000000, 10538998362743/49152000000000, 6532648888699/16384000000000] (118587876497/24576000000000) 9 (by norm_num),
      c8v9, c8q9]
    exact h10
  have h8 : pageRankGo ts3 dangle3 (85/100) (1/10000000) (41 + 1) ![475376374279/1228800000000, 266439655981/1228800000000, 24349198487/61440000000] (6975757441/614400000000) 8 = (![32745929634102065525282626314897275338747930759/84442493013196800000000000000000000000000000000, 18139145751515645621443695667576518380372150701/84442493013196800000000000000000000000000000000, 1677870881378954442663683900876310314043995927/4222124650659840000000000000000000000000000000], 2367911594760467245844106297320951247361/42221246506598400000000000000000000000000000000, 32, "residual") := by
    rw [pageRankGo_iter ts3 dangle3 (85/100) (1/10000000) 41 ![475376374279/1228800000000, 266439655981/1228800000000, 24349198487/61440000000] (6975757441/614400000000) 8 (by norm_num),
      c8v8, c8q8]
    exact h9
  have h7 : pageRankGo ts3 dangle3 (85/100) (1/10000000) (42 + 1) ![12058803293/30720000000, 4324398309/20480000000, 24349198487/61440000000] (410338673/15360000000) 7 = (![32745929634102065525282626314897275338747930759/84442493013196800000000000000000000000000000000, 18139145751515645621443695667576518380372150701/84442493013196800000000000000000000000000000000, 1677870881378954442663683900876310314043995927/4222124650659840000000000000000000000000000000], 2367911594760467245844106297320951247361/42221246506598400000000000000000000000000000000, 32, "residual") := by
    rw [pageRankGo_iter ts3 dangle3 (85/100) (1/10000000) 42 ![12058803293/30720000000, 4324398309/20480000000, 24349198487/61440000000] (410338673/15360000000) 7 (by norm_num),
      c8v7, c8q7]
    exact h8
  have h6 : pageRankGo ts3 dangle3 (85/100) (1/10000000) (43 + 1) ![194141077/512000000, 16729417/76800000, 618988429/1536000000] (24137569/768000000) 6 = (![32745929634102065525282626314897275338747930759/84442493013196800000000000000000000000000000000, 18139145751515645621443695667576518380372150701/84442493013196800000000000000000000000000000000, 1677870881378954442663683900876310314043995927/4222124650659840000000000000000000000000000000], 2367911594760467245844106297320951247361/42221246506598400000000000000000000000000000000, 32, "residual") := by
    rw [pageRankGo_iter ts3 dangle3 (85/100) (1/10000000) 43 ![194141077/512000000, 16729417/76800000, 618988429/1536000000] (24137569/768000000) 6 (by norm_num),
      c8v6, c8q6]
    exact h7
  have h5 : pageRankGo ts3 dangle3 (85/100) (1/10000000) (44 + 1) ![758201/1920000, 16729417/76800000, 9914181/25600000] (1419857/38400000) 5 = (![32745929634102065525282626314897275338747930759/84442493013196800000000000000000000000000000000, 18139145751515645621443695667576518380372150701/84442493013196800000000000000000000000000000000, 1677870881378954442663683900876310314043995927/4222124650659840000000000000000000000000000000], 2367911594760467245844106297320951247361/42221246506598400000000000000000000000000000000, 32, "residual") := by
    rw [pageRankGo_iter ts3 dangle3 (85/100) (1/10000000) 44 ![758201/1920000, 16729417/76800000, 9914181/25600000] (1419857/38400000) 5 (by norm_num),
      c8v5, c8q5]
    exact h6
  have h4 : pageRankGo ts3 dangle3 (85/100) (1/10000000) (45 + 1) ![758201/1920000, 382739/1920000, 38953/96000] (83521/960000) 4 = (![32745929634102065525282626314897275338747930759/84442493013196800000000000000000000000000000000, 18139145751515645621443695667576518380372150701/84442493013196800000000000000000000000000000000, 1677870881378954442663683900876310314043995927/4222124650659840000000000000000000000000000000], 2367911594760467245844106297320951247361/42221246506598400000000000000000000000000000000, 32, "residual") := by
    rw [pageRankGo_iter ts3 dangle3 (85/100) (1/10000000) 45 ![758201/1920000, 382739/1920000, 38953/96000] (83521/960000) 4 (by norm_num),
      c8v4, c8q4]
    exact h5
  have h3 : pageRankGo ts3 dangle3 (85/100) (1/10000000) (46 + 1) ![16867/48000, 7771/32000, 38953/96000] (4913/24000) 3 = (![32745929634102065525282626314897275338747930759/84442493013196800000000000000000000000000000000, 18139145751515645621443695667576518380372150701/84442493013196800000000000000000000000000000000, 1677870881378954442663683900876310314043995927/4222124650659840000000000000000000000000000000], 2367911594760467245844106297320951247361/42221246506598400000000000000000000000000000000, 32, "residual") := by
    rw [pageRankGo_iter ts3 dangle3 (85/100) (1/10000000) 46 ![16867/48000, 7771/32000, 38953/96000] (4913/24000) 3 (by norm_num),
      c8v3, c8q3]
    exact h4
  have h2 : pageRankGo ts3 dangle3 (85/100) (1/10000000) (47 + 1) ![363/800, 23/120, 851/2400] (289/1200) 2 = (![32745929634102065525282626314897275338747930759/84442493013196800000000000000000000000000000000, 18139145751515645621443695667576518380372150701/84442493013196800000000000000000000000000000000, 1677870881378954442663683900876310314043995927/4222124650659840000000000000000000000000000000], 2367911594760467245844106297320951247361/42221246506598400000000000000000000000000000000, 32, "residual") := by
    rw [pageRankGo_iter ts3 dangle3 (85/100) (1/10000000) 47 ![363/800, 23/120, 851/2400] (289/1200) 2 (by norm_num),
      c8v2, c8q2]
    exact h3
  have h1 : pageRankGo ts3 dangle3 (85/100) (1/10000000) (48 + 1) ![1/3, 23/120, 19/40] (17/60) 1 = (![32745929634102065525282626314897275338747930759/84442493013196800000000000000000000000000000000, 18139145751515645621443695667576518380372150701/84442493013196800000000000000000000000000000000, 1677870881378954442663683900876310314043995927/4222124650659840000000000000000000000000000000], 2367911594760467245844106297320951247361/42221246506598400000000000000000000000000000000, 32, "residual") := by
    rw [pageRankGo_iter ts3 dangle3 (85/100) (1/10000000) 48 ![1/3, 23/120, 19/40] (17/60) 1 (by norm_num),
      c8v1, c8q1]
    exact h2
  have h0 : pageRankGo ts3 dangle3 (85/100) (1/10000000) (49 + 1) ![1/3, 1/3, 1/3] (1/10000000 + 1) 0 = (![32745929634102065525282626314897275338747930759/84442493013196800000000000000000000000000000000, 18139145751515645621443695667576518380372150701/84442493013196800000000000000000000000000000000, 1677870881378954442663683900876310314043995927/4222124650659840000000000000000000000000000000], 2367911594760467245844106297320951247361/42221246506598400000000000000000000000000000000, 32, "residual") := by
    rw [pageRankGo_iter ts3 dangle3 (85/100) (1/10000000) 49 ![1/3, 1/3, 1/3] (1/10000000 + 1) 0 (by norm_num),
      c8v0, c8q0]
    exact h1
  unfold pageRank
  rw [huVec3]
  exact h0

/-- C8: on the worked example (`n=3, m=4`, edges `0→1`, `0→2`, `1→2`,
`2→0`) with `damp = 0.85` and the default `eps` and `maxIters`, the
solver stops by the residual test, and in the returned rank vector node
2 has the strictly highest rank and node 1 the strictly lowest. -/
theorem worked_example_ranking :
    (pageRank ts3 dangle3 (85/100) (1/10000000) 50).2.2.2 = "residual" ∧
      (pageRank ts3 dangle3 (85/100) (1/10000000) 50).1 2
        > (pageRank ts3 dangle3 (85/100) (1/10000000) 50).1 0 ∧
      (pageRank ts3 dangle3 (85/100) (1/10000000) 50).1 2
        > (pageRank ts3 dangle3 (85/100) (1/10000000) 50).1 1 ∧
      (pageRank ts3 dangle3 (85/100) (1/10000000) 50).1 0
        > (pageRank ts3 dangle3 (85/100) (1/10000000) 50).1 1 := by
  rw [c8chain]
  refine ⟨rfl, ?_, ?_, ?_⟩ <;>
    norm_num [Matrix.cons_val_zero, Matrix.cons_val_one, Matrix.head_cons,
      Matrix.cons_val_two, Matrix.tail_cons]

end PR
